import Mathlib

/-!
Shallow embedding of the event Lambda handlers:
  * the fast-path create handler (clients, asset pipeline, record builder),
  * the legacy create handler (`Create-Lmabda Event/index.mjs`),
  * the HTML page renderer (`get-lambda function detail/index.js`).

JavaScript values are modelled with `Option` for possibly-undefined fields,
`String`/`Bool`/`Nat` for primitives, and explicit environment records for the
outcomes of the external S3 / DynamoDB collaborators and of the timeout races.
-/

/-! ## JavaScript-style helpers -/

/-- `x || d` for a possibly-undefined string `x`: falsy iff absent or empty. -/
def jsOrS (x : Option String) (d : String) : String :=
  match x with
  | some s => if s = "" then d else s
  | none => d

/-- `x || d` for two strings. -/
def sOr (x d : String) : String :=
  if x = "" then d else x

/-- `x || y` for two possibly-undefined strings, keeping undefinedness. -/
def jsOrOO (x y : Option String) : Option String :=
  match x with
  | some s => if s = "" then y else some s
  | none => y

/-- JS truthiness of a possibly-undefined string. -/
def truthyS (x : Option String) : Bool :=
  match x with
  | some s => !(s == "")
  | none => false

/-! ## DynamoDB attribute-value and table model -/

inductive Attr where
  | s (v : String)
  | n (v : String)
  | bool (v : Bool)
  | l (v : List Attr)
  | m (v : List (String × Attr))
deriving Repr

abbrev Item := List (String × Attr)

/-- Field access on an unmarshalled item (first binding wins, as in a JS object). -/
def getAttr : Item → String → Option Attr
  | [], _ => none
  | (k, v) :: rest, key => if k = key then some v else getAttr rest key

/-- String-typed field of an item, `none` when absent or not a string. -/
def getS (it : Item) (key : String) : Option String :=
  match getAttr it key with
  | some (.s v) => some v
  | _ => none

/-- The Events table, as an association list keyed by eventId. -/
abbrev Store := List (String × Item)

def storeGet (st : Store) (id : String) : Option Item :=
  match st with
  | [] => none
  | (k, it) :: rest => if k = id then some it else storeGet rest id

/-- `PutItemCommand` with `ConditionExpression: "attribute_not_exists(eventId)"`. -/
def condPut (st : Store) (id : String) (it : Item) : Except String Store :=
  match storeGet st id with
  | some _ => .error "The conditional request failed"
  | none => .ok ((id, it) :: st)

/-- Unconditional `PutItemCommand`: silently replaces an existing item. -/
def uncondPut (st : Store) (id : String) (it : Item) : Store :=
  (id, it) :: st

/-! ## base64 data-URI matching

`validateAssetSize` / `uploadToS3Fast` use `^data:image\/\w+;base64,(.+)$`;
the legacy `uploadImage` uses `^data:([A-Za-z-+\/]+);base64,(.+)$`.
Both are deterministic (the character classes exclude the `;` that must follow),
so they are modelled by longest-prefix scans. `.` excludes line terminators. -/

def isWordChar (c : Char) : Bool :=
  (('a' ≤ c && c ≤ 'z') || ('A' ≤ c && c ≤ 'Z') || ('0' ≤ c && c ≤ '9') || c = '_')

def isDotOk (c : Char) : Bool :=
  !(c = '\n' || c = '\r')

/-- Strip an expected literal from the front of a character list. -/
def dropPref : List Char → List Char → Option (List Char)
  | [], l => some l
  | _, [] => none
  | p :: ps, c :: cs => if c = p then dropPref ps cs else none

/-- Match of `^data:(image\/\w+);base64,(.+)$`, returning (contentType, payload). -/
def fastImageMatch (s : String) : Option (String × String) :=
  match dropPref "data:image/".data s.data with
  | none => none
  | some rest =>
    let w := rest.takeWhile isWordChar
    let rest2 := rest.dropWhile isWordChar
    if w = [] then none
    else
      match dropPref ";base64,".data rest2 with
      | none => none
      | some payload =>
        if payload ≠ [] ∧ payload.all isDotOk then
          some ("image/" ++ String.mk w, String.mk payload)
        else none

def legacyMimeChar (c : Char) : Bool :=
  (('a' ≤ c && c ≤ 'z') || ('A' ≤ c && c ≤ 'Z') || c = '-' || c = '+' || c = '/')

/-- Match of `^data:([A-Za-z-+\/]+);base64,(.+)$`, returning (contentType, payload). -/
def legacyMatch (s : String) : Option (String × String) :=
  match dropPref "data:".data s.data with
  | none => none
  | some rest =>
    let w := rest.takeWhile legacyMimeChar
    let rest2 := rest.dropWhile legacyMimeChar
    if w = [] then none
    else
      match dropPref ";base64,".data rest2 with
      | none => none
      | some payload =>
        if payload ≠ [] ∧ payload.all isDotOk then
          some (String.mk w, String.mk payload)
        else none

def MAX_ASSET_SIZE : Nat := 1024 * 1024

/-- `validateAssetSize`: regex match plus `match[1].length * 0.75 > MAX_ASSET_SIZE`
rejection. The float comparison `L * 0.75 > 2^20` is exact and is rendered as
`3 * L > 4 * MAX_ASSET_SIZE` over `Nat`. -/
def validateAssetSize (s : String) : Bool :=
  match fastImageMatch s with
  | none => false
  | some (_, payload) => !(3 * payload.length > 4 * MAX_ASSET_SIZE)

/-- Length of the standard padded base64 encoding of `n` bytes. -/
def b64Len (n : Nat) : Nat := 4 * ((n + 2) / 3)

/-! ## Environment: collaborator and race outcomes -/

/-- Outcome of one S3 `send`, keyed by object key: the upload resolves in time,
the request errors, or the per-upload timeout wins the race. -/
inductive UpOutcome where
  | success
  | sendError
  | timeout
deriving DecidableEq, Repr

structure Env where
  /-- Per-object-key S3 outcome. -/
  up : String → UpOutcome
  /-- The aggregate `UPLOAD_TIMEOUT` race fires before `processAssetsQuickly` settles. -/
  aggTimeout : Bool
  /-- Value produced by `uuidv4()`. -/
  uuid : String
  /-- Value produced by `Date.now()`. -/
  now : Nat
  /-- `process.env.AWS_REGION`. -/
  region : String
  /-- Current Events table contents. -/
  store : Store

/-- Externally visible side effects, in issue order. -/
inductive Effect where
  | s3Put (key : String)
  | ddbPut (table : String) (eventId : String)
deriving DecidableEq, Repr

def BUCKET : String := "event-assets-store"
def TABLE : String := "Events"

/-! ## Fast-path create handler (part_000) -/

structure SpeakerIn where
  name? : Option String := none
  role? : Option String := none
  designation? : Option String := none
  topic? : Option String := none
  featured? : Option Bool := none
  photo? : Option String := none
deriving Repr

structure SponsorIn where
  name? : Option String := none
  website? : Option String := none
  tier? : Option String := none
  logo? : Option String := none
deriving Repr

structure GalleryIn where
  type? : Option String := none
  src? : Option String := none
  title? : Option String := none
  category? : Option String := none
deriving Repr

structure AgendaIn where
  day? : Option Nat := none
  time? : Option String := none
  title? : Option String := none
  speaker? : Option String := none
  location? : Option String := none
  type? : Option String := none
  duration? : Option String := none
deriving Repr

structure CTAIn where
  text? : Option String := none
  link? : Option String := none
deriving Repr

structure ContactIn where
  organizer? : Option String := none
  email? : Option String := none
  whatsapp? : Option String := none
deriving Repr

structure SocialIn where
  facebook? : Option String := none
  twitter? : Option String := none
  instagram? : Option String := none
  linkedin? : Option String := none
  youtube? : Option String := none
deriving Repr

structure HighlightIn where
  icon? : Option String := none
  title? : Option String := none
  description? : Option String := none
deriving Repr

structure NavLinkIn where
  label? : Option String := none
  link? : Option String := none
deriving Repr

/-- A parsed JSON request body, restricted to the fields either handler reads. -/
structure ReqBody where
  eventName? : Option String := none
  title? : Option String := none
  eventDate? : Option String := none
  date? : Option String := none
  selectedTemplate? : Option String := none
  template? : Option String := none
  eventTime? : Option String := none
  time? : Option String := none
  venue? : Option String := none
  description? : Option String := none
  aboutTitle? : Option String := none
  showCountdown? : Option Bool := none
  bannerBase64? : Option String := none
  eventLogo? : Option String := none
  heroImage? : Option String := none
  footerLogo? : Option String := none
  speakers? : Option (List SpeakerIn) := none
  sponsors? : Option (List SponsorIn) := none
  partners? : Option (List SponsorIn) := none
  galleryItems? : Option (List GalleryIn) := none
  videos? : Option (List String) := none
  contact? : Option ContactIn := none
  videoEmbedUrl? : Option String := none
  objectives? : Option (List String) := none
  agenda? : Option (List AgendaIn) := none
  highlights? : Option (List HighlightIn) := none
  email? : Option String := none
  phone? : Option String := none
  mapEmbedUrl? : Option String := none
  contactFormMessage? : Option String := none
  primaryCTA? : Option CTAIn := none
  secondaryCTA? : Option CTAIn := none
  socialLinks? : Option SocialIn := none
  footerNavLinks? : Option (List NavLinkIn) := none
deriving Repr

/-- Result of `normalizeRequestBody`. -/
structure NormBody where
  eventName : String
  eventDate : String
  selectedTemplate : String
  eventTime : String
  venue : String
  description : String
  aboutTitle : String
  showCountdown : Bool
  bannerBase64 : Option String
  eventLogo : Option String
  heroImage : Option String
  speakers : List SpeakerIn
  sponsors : List SponsorIn
  videos : List String
  contact : ContactIn
  videoEmbedUrl : String
deriving Repr

def normalizeRequestBody (b : ReqBody) : NormBody :=
  { eventName := jsOrS b.eventName? (jsOrS b.title? "")
    eventDate := jsOrS b.eventDate? (jsOrS b.date? "")
    selectedTemplate := jsOrS b.selectedTemplate? (jsOrS b.template? "classic")
    eventTime := jsOrS b.eventTime? (jsOrS b.time? "")
    venue := jsOrS b.venue? ""
    description := jsOrS b.description? ""
    aboutTitle := jsOrS b.aboutTitle? "About the Event"
    showCountdown := b.showCountdown?.getD true
    bannerBase64 := b.bannerBase64?
    eventLogo := b.eventLogo?
    heroImage := b.heroImage?
    speakers := match b.speakers? with
      | some l => l.take 5
      | none => []
    sponsors := match b.sponsors? with
      | some l => l.take 10
      | none => match b.partners? with
        | some l => l.take 10
        | none => []
    videos := match b.videos? with
      | some l => l.take 1
      | none => []
    contact := b.contact?.getD {}
    videoEmbedUrl := jsOrS b.videoEmbedUrl? (jsOrS (b.videos?.bind List.head?) "") }

def normField (b : NormBody) : String → String
  | "eventName" => b.eventName
  | "eventDate" => b.eventDate
  | "selectedTemplate" => b.selectedTemplate
  | _ => ""

/-- JS `String.prototype.trim`: strip whitespace from both ends. -/
def jsTrim (s : String) : String :=
  String.mk (((s.data.dropWhile Char.isWhitespace).reverse.dropWhile
    Char.isWhitespace).reverse)

/-- `validateRequiredFields`: the list of required fields whose trimmed string
value is empty (JS `!body[field]?.toString().trim()`). -/
def validateRequiredFields (b : NormBody) : List String :=
  ["eventName", "eventDate", "selectedTemplate"].filter fun f =>
    jsTrim (normField b f) == ""

/-- `String.prototype.split` with a single-character separator. -/
def splitOnChar (c : Char) : List Char → List (List Char)
  | [] => [[]]
  | x :: xs =>
    match splitOnChar c xs with
    | [] => if x = c then [[], []] else [[x]]
    | h :: t2 => if x = c then [] :: h :: t2 else (x :: h) :: t2

/-- `contentType.split("/")`. -/
def splitSlash (s : String) : List String :=
  (splitOnChar '/' s.data).map String.mk

/-- URL shape produced by `uploadToS3Fast`. -/
def fastS3Url (region key : String) : String :=
  "https://" ++ BUCKET ++ ".s3." ++ region ++ ".amazonaws.com/" ++ key

/-- `uploadToS3Fast`: parse the data URI (throwing `Invalid base64 format` on
mismatch), derive the extension from the declared content type, issue the S3
put, and return the public URL. The `Except` error carries what the rejected
promise would carry. -/
def uploadToS3Fast (env : Env) (base64Data keyPrefix : String) :
    Except String String × List Effect :=
  match fastImageMatch base64Data with
  | none => (.error "Invalid base64 format", [])
  | some (contentType, _data) =>
    let extension := jsOrS ((splitSlash contentType)[1]?) "jpg"
    let key := keyPrefix ++ "." ++ extension
    match env.up key with
    | .success => (.ok (fastS3Url env.region key), [.s3Put key])
    | .sendError => (.error "send failed", [.s3Put key])
    | .timeout => (.error "Upload timeout", [.s3Put key])

/-- `uploadWithTimeout`: size gate, then `uploadToS3Fast` raced against the
1.5 s per-upload timeout, with every failure caught and turned into `""`. -/
def uploadWithTimeout (env : Env) (base64Data keyPrefix : String) :
    String × List Effect :=
  if base64Data = "" || !validateAssetSize base64Data then ("", [])
  else
    let up := uploadToS3Fast env base64Data keyPrefix
    match up.1 with
    | .ok url => (url, up.2)
    | .error _ => ("", up.2)

structure SpeakerOut where
  name : String
  role : String
  topic : String
  url : String
  featured : Bool
deriving Repr

structure SponsorOut where
  name : String
  website : String
  tier : String
  url : String
deriving Repr

structure GalleryOut where
  type : String
  src : String
  title : String
  category : String
deriving Repr

structure Assets where
  eventLogo : String
  heroImage : String
  footerLogo : String
  banner : String
  speakers : List SpeakerOut
  sponsors : List SponsorOut
  galleryItems : List GalleryOut
  mainAssets : Nat
deriving Repr

/-- `processAssetsQuickly`: upload the two essential assets (banner, logo) in
parallel, skip every per-entity image, and carry scalar speaker/sponsor data. -/
def processAssetsQuickly (body : NormBody) (eventId : String) (env : Env) :
    Assets × List Effect :=
  let bannerData := jsOrOO body.bannerBase64 body.heroImage
  -- `.filter(asset => asset.data && validateAssetSize(asset.data))`
  let bannerQualifies := truthyS bannerData && validateAssetSize (bannerData.getD "")
  let logoQualifies := truthyS body.eventLogo && validateAssetSize (body.eventLogo.getD "")
  let bannerUp :=
    if bannerQualifies then
      uploadWithTimeout env (bannerData.getD "") ("banners/" ++ eventId ++ "_banner")
    else ("", [])
  let logoUp :=
    if logoQualifies then
      uploadWithTimeout env (body.eventLogo.getD "") ("banners/" ++ eventId ++ "_logo")
    else ("", [])
  let bannerUrl := bannerUp.1
  let logoUrl := logoUp.1
  let speakers := (body.speakers.take 5).map fun speaker =>
    { name := jsOrS speaker.name? ""
      role := jsOrS speaker.role? (jsOrS speaker.designation? "")
      topic := jsOrS speaker.topic? ""
      url := ""  -- skip photo uploads to save time
      featured := speaker.featured?.getD false : SpeakerOut }
  -- on the normalized body, `body.sponsors || body.partners || []` is
  -- `body.sponsors` (an array, hence truthy even when empty)
  let sponsors := (body.sponsors.take 10).map fun sponsor =>
    { name := jsOrS sponsor.name? ""
      website := jsOrS sponsor.website? ""
      tier := jsOrS sponsor.tier? "silver"
      url := "" : SponsorOut }
  ({ eventLogo := logoUrl
     heroImage := ""
     footerLogo := ""
     banner := bannerUrl
     speakers := speakers
     sponsors := sponsors
     galleryItems := []
     mainAssets := (if bannerUrl = "" then 0 else 1) + (if logoUrl = "" then 0 else 1) },
   bannerUp.2 ++ logoUp.2)

/-- The canonical fallback returned when asset processing fails or times out. -/
def fallbackAssets : Assets :=
  { eventLogo := ""
    heroImage := ""
    footerLogo := ""
    banner := ""
    speakers := []
    sponsors := []
    galleryItems := []
    mainAssets := 0 }

/-- `processAssetsWithTimeout`: the whole batch raced against `UPLOAD_TIMEOUT`;
when the race is lost the fallback is returned, but the already-issued upload
side effects remain in flight. -/
def processAssetsWithTimeout (body : NormBody) (eventId : String) (env : Env) :
    Assets × List Effect :=
  let pq := processAssetsQuickly body eventId env
  if env.aggTimeout then (fallbackAssets, pq.2) else pq

/-- `createEventRecord`'s `dbItem`, in source field order. -/
def fastDbItem (body : NormBody) (eventId : String) (timestamp : Nat)
    (assets : Assets) : Item :=
  [ ("eventId", .s eventId),
    ("createdAt", .n (toString timestamp)),
    ("updatedAt", .n (toString timestamp)),
    ("status", .s "active"),
    ("selectedTemplate", .s (sOr body.selectedTemplate "classic")),
    ("eventName", .s (sOr body.eventName "")),
    ("eventDate", .s (sOr body.eventDate "")),
    ("eventTime", .s (sOr body.eventTime "")),
    ("venue", .s (sOr body.venue "")),
    ("description", .s (sOr body.description "")),
    ("eventLogo", .s (sOr assets.eventLogo "")),
    ("heroImage", .s (sOr assets.banner (sOr assets.heroImage ""))),
    ("showCountdown", .bool body.showCountdown),
    ("aboutTitle", .s (sOr body.aboutTitle "About the Event")),
    ("videoEmbedUrl", .s (sOr body.videoEmbedUrl (jsOrS body.videos.head? ""))),
    ("speakers", .l ((assets.speakers.take 5).map fun s =>
      .m [ ("name", .s (sOr s.name "")),
           ("role", .s (sOr s.role "")),
           ("topic", .s (sOr s.topic "")),
           ("photo", .s (sOr s.url "")),
           ("featured", .bool s.featured) ])),
    ("sponsors", .l ((assets.sponsors.take 10).map fun s =>
      .m [ ("name", .s (sOr s.name "")),
           ("logo", .s (sOr s.url "")),
           ("website", .s (sOr s.website "")),
           ("tier", .s (sOr s.tier "silver")) ])),
    ("contactOrganizer", .s (jsOrS body.contact.organizer? "")),
    ("contactEmail", .s (jsOrS body.contact.email? "")),
    ("contactWhatsapp", .s (jsOrS body.contact.whatsapp? "")),
    ("_version", .n "1"),
    ("_processingMode", .s "fast") ]

/-- Inbound Lambda `event` values, as `validateAndParseRequest` distinguishes
them: absent, carrying a `body` JSON string (parsed, or failing/non-object),
carrying a `body` object, or being the body object itself. -/
inductive FastReqEvent where
  | null
  | withBodyStr (parsed : Option ReqBody)
  | withBodyObj (b : ReqBody)
  | plain (b : ReqBody)

def validateAndParseRequest : FastReqEvent → Except String ReqBody
  | .null => .error "No event provided"
  | .withBodyStr none => .error "Invalid JSON body"
  | .withBodyStr (some b) => .ok b
  | .withBodyObj b => .ok b
  | .plain b => .ok b

/-- Response payloads relevant to the claims. -/
inductive RespTag where
  | invalidRequest (detail : String)
  | missingFields (missing : List String)
  | created (eventId : String)
  | failure
deriving Repr

structure Resp where
  statusCode : Nat
  tag : RespTag
deriving Repr

structure HandlerOut where
  resp : Resp
  store : Store
  trace : List Effect

/-- The fast-path `handler`: parse, normalize, validate, process assets under
the aggregate timeout, then write the record conditionally. -/
def fastHandler (event : FastReqEvent) (env : Env) : HandlerOut :=
  match validateAndParseRequest event with
  | .error e => ⟨⟨400, .invalidRequest e⟩, env.store, []⟩
  | .ok body =>
    let normalizedBody := normalizeRequestBody body
    let missing := validateRequiredFields normalizedBody
    if missing ≠ [] then ⟨⟨400, .missingFields missing⟩, env.store, []⟩
    else
      let eventId := env.uuid
      let timestamp := env.now
      let pa := processAssetsWithTimeout normalizedBody eventId env
      let item := fastDbItem normalizedBody eventId timestamp pa.1
      match condPut env.store eventId item with
      | .error _ => ⟨⟨500, .failure⟩, env.store, pa.2 ++ [.ddbPut TABLE eventId]⟩
      | .ok st => ⟨⟨201, .created eventId⟩, st, pa.2 ++ [.ddbPut TABLE eventId]⟩

/-! ## Legacy create handler (`Create-Lmabda Event/index.mjs`) -/

/-- Substring scan over character lists. -/
def infixScan (pat : List Char) : List Char → Bool
  | [] => pat.isPrefixOf []
  | c :: cs => pat.isPrefixOf (c :: cs) || infixScan pat cs

/-- Substring test (JS `String.prototype.includes`). -/
def containsSub (pat s : String) : Bool :=
  infixScan pat.data s.data

/-- `key.replace(/\.(jpg|png|gif|webp|mp4)$/, "." ++ extension)`. -/
def replaceExtKey (key extension : String) : String :=
  let suffixes := [".jpg", ".png", ".gif", ".webp", ".mp4"]
  match suffixes.find? (fun suf => suf.data.isSuffixOf key.data) with
  | some suf => String.mk (key.data.take (key.length - suf.length)) ++ "." ++ extension
  | none => key

/-- URL shape produced by the legacy `uploadImage`. -/
def legacyS3Url (key : String) : String :=
  "https://" ++ BUCKET ++ ".s3.amazonaws.com/" ++ key

/-- Legacy `uploadImage`: parse the data URI, pick the extension by substring
tests on the content type, upload, and return the URL; every failure is caught
and yields `''`. -/
def uploadImage (env : Env) (base64Data key : String) : String × List Effect :=
  if base64Data = "" then ("", [])
  else
    match legacyMatch base64Data with
    | none => ("", [])  -- `Invalid base64 format` thrown, caught below
    | some (contentType, _content) =>
      let extension :=
        if containsSub "png" contentType then "png"
        else if containsSub "gif" contentType then "gif"
        else if containsSub "webp" contentType then "webp"
        else "jpg"
      let keyWithExtension := replaceExtKey key extension
      match env.up keyWithExtension with
      | .success => (legacyS3Url keyWithExtension, [.s3Put keyWithExtension])
      | _ => ("", [.s3Put keyWithExtension])

/-- Optional upload guarded by JS truthiness (`if (body.x) { ... }`). -/
def uploadIf (env : Env) (data? : Option String) (key : String) : String × List Effect :=
  match data? with
  | some d => if d = "" then ("", []) else uploadImage env d key
  | none => ("", [])

def legacySpeakerAttr (env : Env) (eventId : String) (i : Nat) (speaker : SpeakerIn) :
    Attr × List Effect :=
  let photoUp :=
    uploadIf env speaker.photo? ("speakers/" ++ eventId ++ "_speaker_" ++ toString i ++ ".jpg")
  (.m [ ("name", .s (jsOrS speaker.name? "")),
        ("role", .s (jsOrS speaker.role? "")),
        ("topic", .s (jsOrS speaker.topic? "")),
        ("photo", .s photoUp.1),
        ("featured", .bool (speaker.featured?.getD false)) ], photoUp.2)

def legacySponsorAttr (env : Env) (eventId : String) (i : Nat) (sponsor : SponsorIn) :
    Attr × List Effect :=
  let logoUp :=
    uploadIf env sponsor.logo? ("sponsors/" ++ eventId ++ "_sponsor_" ++ toString i ++ ".jpg")
  (.m [ ("name", .s (jsOrS sponsor.name? "")),
        ("logo", .s logoUp.1),
        ("website", .s (jsOrS sponsor.website? "")),
        ("tier", .s (jsOrS sponsor.tier? "silver")) ], logoUp.2)

def legacyGalleryAttr (env : Env) (eventId : String) (i : Nat) (item : GalleryIn) :
    Attr × List Effect :=
  let extension := if jsOrS item.type? "" = "video" then "mp4" else "jpg"
  let mediaUp :=
    uploadIf env item.src? ("gallery/" ++ eventId ++ "_gallery_" ++ toString i ++ "." ++ extension)
  (.m [ ("type", .s (jsOrS item.type? "image")),
        ("src", .s mediaUp.1),
        ("title", .s (jsOrS item.title? "")),
        ("category", .s (jsOrS item.category? "Event")) ], mediaUp.2)

/-- Map with index, collecting per-element effect traces in order. -/
def mapWithEffects (f : Nat → α → Attr × List Effect) : Nat → List α → List Attr × List Effect
  | _, [] => ([], [])
  | i, x :: xs =>
    let hd := f i x
    let rest := mapWithEffects f (i + 1) xs
    (hd.1 :: rest.1, hd.2 ++ rest.2)

/-- The legacy handler's DynamoDB item, in source field order, together with the
side effects of building it (the uploads of the header images, speaker photos,
sponsor logos and gallery media, in issue order). -/
def legacyItemAndEffects (env : Env) (body : ReqBody) (eventId : String)
    (createdAt : Nat) : Item × List Effect :=
  let logoUp := uploadIf env body.eventLogo? ("logos/" ++ eventId ++ "_logo.jpg")
  let heroUp := uploadIf env body.heroImage? ("heroes/" ++ eventId ++ "_hero.jpg")
  let footerUp := uploadIf env body.footerLogo? ("footers/" ++ eventId ++ "_footer.jpg")
  let speakersUp := mapWithEffects (legacySpeakerAttr env eventId) 0 (body.speakers?.getD [])
  let sponsorsUp := mapWithEffects (legacySponsorAttr env eventId) 0 (body.sponsors?.getD [])
  let galleryUp := mapWithEffects (legacyGalleryAttr env eventId) 0 (body.galleryItems?.getD [])
  let eventLogoUrl := logoUp.1
  let heroImageUrl := heroUp.1
  let footerLogoUrl := footerUp.1
  let speakers := speakersUp.1
  let sponsors := sponsorsUp.1
  let galleryItems := galleryUp.1
  ([ ("eventId", .s eventId),
     ("createdAt", .n (toString createdAt)),
     ("selectedTemplate", .s (jsOrS body.selectedTemplate? "1")),
     ("eventName", .s (jsOrS body.eventName? "")),
     ("eventDate", .s (jsOrS body.eventDate? "")),
     ("eventTime", .s (jsOrS body.eventTime? "")),
     ("venue", .s (jsOrS body.venue? "")),
     ("eventLogo", .s eventLogoUrl),
     ("heroImage", .s heroImageUrl),
     ("showCountdown", .bool (body.showCountdown?.getD true)),
     ("primaryCTA", .m [
        ("text", .s (jsOrS (body.primaryCTA?.bind CTAIn.text?) "Register Now")),
        ("link", .s (jsOrS (body.primaryCTA?.bind CTAIn.link?) "#contact")) ]),
     ("secondaryCTA", .m [
        ("text", .s (jsOrS (body.secondaryCTA?.bind CTAIn.text?) "View Agenda")),
        ("link", .s (jsOrS (body.secondaryCTA?.bind CTAIn.link?) "#agenda")) ]),
     ("aboutTitle", .s (jsOrS body.aboutTitle? "About the Event")),
     ("description", .s (jsOrS body.description? "")),
     ("videoEmbedUrl", .s (jsOrS body.videoEmbedUrl? "")),
     ("objectives", .l ((body.objectives?.getD []).map fun obj => .s obj)),
     ("speakers", .l speakers),
     ("agenda", .l ((body.agenda?.getD []).map fun session =>
        .m [ ("day", .n (toString (session.day?.getD 1))),
             ("time", .s (jsOrS session.time? "")),
             ("title", .s (jsOrS session.title? "")),
             ("speaker", .s (jsOrS session.speaker? "")),
             ("location", .s (jsOrS session.location? "")),
             ("type", .s (jsOrS session.type? "session")),
             ("duration", .s (jsOrS session.duration? "1 hour")) ])),
     ("highlights", .l ((body.highlights?.getD []).map fun highlight =>
        .m [ ("icon", .s (jsOrS highlight.icon? "zap")),
             ("title", .s (jsOrS highlight.title? "")),
             ("description", .s (jsOrS highlight.description? "")) ])),
     ("sponsors", .l sponsors),
     ("galleryItems", .l galleryItems),
     ("email", .s (jsOrS body.email? "")),
     ("phone", .s (jsOrS body.phone? "")),
     ("mapEmbedUrl", .s (jsOrS body.mapEmbedUrl? "")),
     ("contactFormMessage", .s (jsOrS body.contactFormMessage?
        "Ready to join us? Register now or get in touch for more information.")),
     ("socialLinks", .m [
        ("facebook", .s (jsOrS (body.socialLinks?.bind SocialIn.facebook?) "")),
        ("twitter", .s (jsOrS (body.socialLinks?.bind SocialIn.twitter?) "")),
        ("instagram", .s (jsOrS (body.socialLinks?.bind SocialIn.instagram?) "")),
        ("linkedin", .s (jsOrS (body.socialLinks?.bind SocialIn.linkedin?) "")),
        ("youtube", .s (jsOrS (body.socialLinks?.bind SocialIn.youtube?) "")) ]),
     ("footerLogo", .s footerLogoUrl),
     ("footerNavLinks", .l ((body.footerNavLinks?.getD []).map fun link =>
        .m [ ("label", .s (jsOrS link.label? "")),
             ("link", .s (jsOrS link.link? "")) ])),
     ("status", .s "active"),
     ("updatedAt", .n (toString createdAt)) ],
   logoUp.2 ++ heroUp.2 ++ footerUp.2 ++ speakersUp.2 ++ sponsorsUp.2 ++ galleryUp.2)

/-- Inbound event for the legacy handler: the body JSON parses, or
`JSON.parse` throws (caught by the handler's top-level `catch`). -/
inductive LegacyIn where
  | parseError
  | body (b : ReqBody)

/-- The legacy `handler`: no validation call, every upload best-effort, then an
unconditional `PutItemCommand`. -/
def legacyHandler (inp : LegacyIn) (env : Env) : HandlerOut :=
  match inp with
  | .parseError => ⟨⟨500, .failure⟩, env.store, []⟩
  | .body b =>
    let eventId := env.uuid
    let createdAt := env.now
    let built := legacyItemAndEffects env b eventId createdAt
    ⟨⟨201, .created eventId⟩, uncondPut env.store eventId built.1,
      built.2 ++ [.ddbPut TABLE eventId]⟩

/-- JS `Date(dateString)` validity for a `YYYY-MM-DD` string, approximated by
the ISO-format calendar check (month 01–12, day 01–31). -/
def isValidDate (dateString : String) : Bool :=
  match dateString.data with
  | [y1, y2, y3, y4, d1, m1, m2, d2, dd1, dd2] =>
    ([y1, y2, y3, y4].all Char.isDigit) && d1 = '-' && d2 = '-' &&
    m1.isDigit && m2.isDigit && dd1.isDigit && dd2.isDigit &&
    (let m := (m1.toNat - '0'.toNat) * 10 + (m2.toNat - '0'.toNat)
     let d := (dd1.toNat - '0'.toNat) * 10 + (dd2.toNat - '0'.toNat)
     1 ≤ m && m ≤ 12 && 1 ≤ d && d ≤ 31)
  | _ => false

/-- `validateEventData`: the validation helper the legacy module defines (and
documents as throwing on bad input) but never invokes from its handler. -/
def validateEventData (body : ReqBody) : Except String Unit :=
  let requiredFields := ["eventName", "eventDate", "selectedTemplate"]
  let fieldVal : String → Option String := fun f =>
    match f with
    | "eventName" => body.eventName?
    | "eventDate" => body.eventDate?
    | "selectedTemplate" => body.selectedTemplate?
    | _ => none
  let missingFields := requiredFields.filter fun f => !truthyS (fieldVal f)
  if missingFields ≠ [] then
    .error ("Missing required fields: " ++ String.intercalate ", " missingFields)
  else if !(["1", "2"].contains (jsOrS body.selectedTemplate? "")) then
    .error "Invalid template selection. Must be \"1\" or \"2\""
  else if truthyS body.eventDate? && !isValidDate (jsOrS body.eventDate? "") then
    .error "Invalid date format. Expected YYYY-MM-DD"
  else
    .ok ()

/-! ## Page renderer (`get-lambda function detail/index.js`) -/

/-- Single-character `replaceAll` over character lists. -/
def replaceAllC (s : List Char) (c : Char) (r : List Char) : List Char :=
  s.flatMap fun x => if x = c then r else [x]

/-- `escapeHtml`: the chain of `replaceAll`s for the five special characters
(`&` first, so entities introduced later are not re-escaped). -/
def escapeHtml (s : String) : String :=
  String.mk
    (replaceAllC
      (replaceAllC
        (replaceAllC
          (replaceAllC
            (replaceAllC s.data '&' "&amp;".data)
            '<' "&lt;".data)
          '>' "&gt;".data)
        '"' "&quot;".data)
      '\x27' "&#39;".data)

/-- `escapeHtml` applied to a possibly-undefined argument: the `s = ""` default
parameter makes `undefined` collapse to the empty string. -/
def escO (o : Option String) : String :=
  escapeHtml (o.getD "")

/-- `formatDate`: `new Date(Number(ts)).toLocaleString()`. Locale rendering of
the numeric timestamp is modelled as the stored numeral itself; an absent
timestamp interpolates as `undefined` does in a JS template literal. -/
def formatDate (ts : Option String) : String :=
  match ts with
  | some v => v
  | none => "undefined"

structure RAgenda where
  title? : Option String := none
  time? : Option String := none
deriving Repr

structure RSpeaker where
  photo? : Option String := none
  name? : Option String := none
  designation? : Option String := none
deriving Repr

structure RPartner where
  logo? : Option String := none
  name? : Option String := none
deriving Repr

/-- The renderer's view of an unmarshalled record: exactly the fields the two
templates and the dispatching handler read. -/
structure REvent where
  title? : Option String := none
  bannerUrl? : Option String := none
  date? : Option String := none
  description? : Option String := none
  organizer? : Option String := none
  email? : Option String := none
  whatsapp? : Option String := none
  agenda : List RAgenda := []
  speakers : List RSpeaker := []
  partners : List RPartner := []
  videos : List String := []
  eventId? : Option String := none
  createdAt? : Option String := none
  template? : Option String := none
deriving Repr

def toRAgenda : Attr → RAgenda
  | .m m => { title? := getS m "title", time? := getS m "time" }
  | _ => {}

def toRSpeaker : Attr → RSpeaker
  | .m m => { photo? := getS m "photo", name? := getS m "name",
              designation? := getS m "designation" }
  | _ => {}

def toRPartner : Attr → RPartner
  | .m m => { logo? := getS m "logo", name? := getS m "name" }
  | _ => {}

def attrListOf (it : Item) (key : String) : List Attr :=
  match getAttr it key with
  | some (.l l) => l
  | _ => []

/-- `unmarshall` composed with the field reads the renderer performs. String
coercion of non-string scalars is not modelled (the records written by the
create handlers store the read fields with the expected types). -/
def toREvent (it : Item) : REvent :=
  { title? := getS it "title"
    bannerUrl? := getS it "bannerUrl"
    date? := getS it "date"
    description? := getS it "description"
    organizer? := match getAttr it "contact" with
      | some (.m m) => getS m "organizer"
      | _ => none
    email? := match getAttr it "contact" with
      | some (.m m) => getS m "email"
      | _ => none
    whatsapp? := match getAttr it "contact" with
      | some (.m m) => getS m "whatsapp"
      | _ => none
    agenda := (attrListOf it "agenda").map toRAgenda
    speakers := (attrListOf it "speakers").map toRSpeaker
    partners := (attrListOf it "partners").map toRPartner
    videos := (attrListOf it "videos").map fun a =>
      match a with
      | .s v => v
      | _ => ""
    eventId? := getS it "eventId"
    createdAt? := match getAttr it "createdAt" with
      | some (.n v) => some v
      | _ => none
    template? := getS it "template" }

/-- `String.prototype.toLowerCase` (character-wise). -/
def jsToLower (s : String) : String :=
  String.mk (s.data.map Char.toLower)

/-- `whatsapp.replace(/\D/g, "")`. -/
def waDigits (s : String) : String :=
  String.mk (s.data.filter Char.isDigit)

/-- The banner interpolation `${banner ? `<img class="banner" src="${escapeHtml(banner)}" alt="${title} banner" />` : ""}`. -/
def classicBannerImgTag (title banner : String) : String :=
  if banner = "" then ""
  else "<img class=\"banner\" src=\"" ++ escapeHtml banner ++ "\" alt=\"" ++ title ++ " banner\" />"

/-- The speaker-photo interpolation inside the classic speaker card. -/
def classicSpeakerImgTag (s : RSpeaker) : String :=
  if truthyS s.photo? then
    "<img src=\"" ++ escO s.photo? ++ "\" alt=\"" ++ escO s.name? ++ " photo\"/>"
  else ""

def classicSpeakerHtml (s : RSpeaker) : String :=
  "\n              <div class=\"speaker\">\n                "
  ++ classicSpeakerImgTag s
  ++ "\n                <div>\n                  <div style=\"font-weight:700\">"
  ++ escO s.name?
  ++ "</div>\n                  <div style=\"color:var(--muted)\">"
  ++ escO s.designation?
  ++ "</div>\n                </div>\n              </div>\n            "

def classicSpeakersBlock (speakers : List RSpeaker) : String :=
  if speakers.length ≠ 0 then String.join (speakers.map classicSpeakerHtml)
  else "<p>No speakers listed</p>"

def classicAgendaHtml (a : RAgenda) : String :=
  "\n                <div class=\"item\"><strong>"
  ++ escO a.title?
  ++ "</strong><div style=\"color:var(--muted)\">"
  ++ escO a.time?
  ++ "</div></div>\n              "

def classicAgendaBlock (agenda : List RAgenda) : String :=
  if agenda.length ≠ 0 then String.join (agenda.map classicAgendaHtml)
  else "<p>No agenda items</p>"

def classicVideoHtml (v : String) : String :=
  "<div style=\"margin-bottom:12px\"><iframe src=\"" ++ escapeHtml v
  ++ "\" allowfullscreen></iframe></div>"

def classicVideosBlock (videos : List String) : String :=
  if videos.length ≠ 0 then String.join (videos.map classicVideoHtml)
  else "<p>No videos</p>"

def classicPartnerHtml (p : RPartner) : String :=
  "<div style=\"display:flex;align-items:center;margin:8px 12px 8px 0\"><img src=\""
  ++ escO p.logo? ++ "\" alt=\"" ++ escO p.name?
  ++ "\" /><div style=\"margin-left:8px;color:var(--muted)\">" ++ escO p.name?
  ++ "</div></div>"

def classicPartnersBlock (partners : List RPartner) : String :=
  if partners.length ≠ 0 then String.join (partners.map classicPartnerHtml)
  else "<p>No partners</p>"

def cHead1 : String :=
  "\n  <!doctype html>\n  <html lang=\"en\">\n  <head>\n    <meta charset=\"utf-8\" />\n    <meta name=\"viewport\" content=\"width=device-width,initial-scale=1\" />\n    <title>"

def cStyle : String :=
  "</title>\n    <style>\n      :root\x7b--yellow:#f6d34a;--black:#111;--muted:#666\x7d\n      body\x7bfont-family:system-ui,-apple-system,Segoe UI,Roboto,\x27Helvetica Neue\x27,Arial;margin:0;background:#fff;color:var(--black);line-height:1.4\x7d\n      .hero\x7bbackground:linear-gradient(180deg,rgba(0,0,0,0.25),transparent), #f8e785;padding:40px 20px;text-align:center\x7d\n      .container\x7bmax-width:1100px;margin:0 auto;padding:28px\x7d\n      .banner\x7bwidth:100%;height:360px;object-fit:cover;border-radius:12px;box-shadow:0 6px 20px rgba(0,0,0,0.12)\x7d\n      h1\x7bfont-size:32px;margin:18px 0 8px\x7d\n      .meta\x7bcolor:var(--muted);font-weight:600\x7d\n      nav.topmenu\x7bposition:sticky;top:0;z-index:40;background:#fff;padding:10px 0;border-bottom:1px solid #eee\x7d\n      nav.topmenu .inner\x7bmax-width:1100px;margin:0 auto;display:flex;gap:12px;align-items:center;padding:0 18px\x7d\n      nav a\x7bcolor:var(--black);text-decoration:none;font-weight:600\x7d\n      .grid\x7bdisplay:grid;grid-template-columns:2fr 1fr;gap:28px;margin-top:22px\x7d\n      .section\x7bbackground:#fff;padding:18px;border-radius:12px;box-shadow:0 6px 20px rgba(0,0,0,0.03)\x7d\n      .speakers .speaker\x7bdisplay:flex;gap:12px;align-items:center;margin-bottom:12px\x7d\n      .speaker img\x7bwidth:64px;height:64px;border-radius:8px;object-fit:cover\x7d\n      .partners img\x7bheight:40px;margin-right:12px;object-fit:contain\x7d\n      .agenda .item\x7bpadding:10px;border-left:3px solid var(--yellow);margin-bottom:10px\x7d\n      .videos iframe\x7bwidth:100%;height:300px;border:0;border-radius:8px\x7d\n      .contact a\x7bdisplay:inline-block;margin-right:10px;background:var(--black);color:white;padding:10px 14px;border-radius:8px;text-decoration:none\x7d\n      footer\x7bmargin-top:40px;padding:20px;text-align:center;color:var(--muted)\x7d\n      @media(max-width:900px)\x7b .grid\x7bgrid-template-columns:1fr\x7d .banner\x7bheight:220px\x7d \x7d\n    </style>\n  </head>\n  <body>\n    <nav class=\"topmenu\"><div class=\"inner\">\n      <strong>"

def cNav : String :=
  "</strong>\n      <div style=\"flex:1\"></div>\n      <a href=\"#about\">About</a>\n      <a href=\"#speakers\">Speakers</a>\n      <a href=\"#agenda\">Agenda</a>\n      <a href=\"#partners\">Partners</a>\n      <a href=\"#videos\">Videos</a>\n      <a href=\"#contact\">Contact</a>\n    </div></nav>\n\n    <header class=\"hero\">\n      <div class=\"container\">\n        <h1>"

def cMeta1 : String :=
  "</h1>\n        <div class=\"meta\">"

def cMeta2 : String :=
  " • Organized by "

def cMeta3 : String :=
  "</div>\n        "

def cAbout1 : String :=
  "\n      </div>\n    </header>\n\n    <main class=\"container\">\n      <div class=\"grid\">\n        <div>\n          <section id=\"about\" class=\"section\">\n            <h2>About</h2>\n            <p>"

def cSpeakers1 : String :=
  "</p>\n          </section>\n\n          <section id=\"speakers\" class=\"section speakers\" style=\"margin-top:18px\">\n            <h2>Speakers</h2>\n            "

def cAgenda1 : String :=
  "\n          </section>\n\n          <section id=\"agenda\" class=\"section\" style=\"margin-top:18px\">\n            <h2>Agenda</h2>\n            <div class=\"agenda\">\n              "

def cVideos1 : String :=
  "\n            </div>\n          </section>\n\n          <section id=\"videos\" class=\"section\" style=\"margin-top:18px\">\n            <h2>Videos</h2>\n            <div class=\"videos\">\n              "

def cPartners1 : String :=
  "\n            </div>\n          </section>\n        </div>\n\n        <aside>\n          <section id=\"partners\" class=\"section partners\">\n            <h3>Partners</h3>\n            <div style=\"display:flex;flex-wrap:wrap;align-items:center\">\n              "

def cContact1 : String :=
  "\n            </div>\n          </section>\n\n          <section id=\"contact\" class=\"section contact\" style=\"margin-top:18px\">\n            <h3>Contact</h3>\n            <p><strong>"

def cContact2 : String :=
  "</strong></p>\n            <p>Email: <a href=\"mailto:"

def cContact3 : String :=
  "\">"

def cContact4 : String :=
  "</a></p>\n            <p>WhatsApp: <a href=\"https://wa.me/"

def cContact5 : String :=
  "\" target=\"_blank\">"

def cContact6 : String :=
  "</a></p>\n            <div style=\"margin-top:10px\">\n              <a href=\"mailto:"

def cContact7 : String :=
  "\">Email Organizer</a>\n              <a href=\"https://wa.me/"

def cContact8 : String :=
  "\" target=\"_blank\">Message on WhatsApp</a>\n            </div>\n          </section>\n        </aside>\n      </div>\n\n      <footer>\n        Page generated dynamically. Event ID: "

def cFooter1 : String :=
  " • Created: "

def cFooter2 : String :=
  "\n      </footer>\n    </main>\n  </body>\n  </html>\n  "

/-- `renderClassic`: the classic template, with the source's local bindings
(`title` pre-escaped and re-escaped at the nav interpolation, `banner` raw
until its single escaped use, contact fields pre-escaped). -/
def renderClassic (event : REvent) : String :=
  let title := escapeHtml (jsOrS event.title? "Untitled Event")
  let banner := jsOrS event.bannerUrl? ""
  let date := escapeHtml (jsOrS event.date? "")
  let description := escapeHtml (jsOrS event.description? "")
  let organizer := escapeHtml (jsOrS event.organizer? "")
  let email := escapeHtml (jsOrS event.email? "")
  let whatsapp := escapeHtml (jsOrS event.whatsapp? "")
  cHead1 ++ title
  ++ cStyle ++ escapeHtml title
  ++ cNav ++ title
  ++ cMeta1 ++ date ++ cMeta2 ++ organizer ++ cMeta3
  ++ classicBannerImgTag title banner
  ++ cAbout1 ++ description
  ++ cSpeakers1 ++ classicSpeakersBlock event.speakers
  ++ cAgenda1 ++ classicAgendaBlock event.agenda
  ++ cVideos1 ++ classicVideosBlock event.videos
  ++ cPartners1 ++ classicPartnersBlock event.partners
  ++ cContact1 ++ organizer
  ++ cContact2 ++ email ++ cContact3 ++ email
  ++ cContact4 ++ waDigits whatsapp ++ cContact5 ++ whatsapp
  ++ cContact6 ++ email
  ++ cContact7 ++ waDigits whatsapp
  ++ cContact8 ++ escO (jsOrOO event.eventId? (some ""))
  ++ cFooter1 ++ formatDate event.createdAt?
  ++ cFooter2

def modernAgendaHtml (a : RAgenda) : String :=
  "<div><strong>" ++ escO a.title? ++ "</strong> — " ++ escO a.time? ++ "</div>"

def modernSpeakerHtml (s : RSpeaker) : String :=
  "<div style=\"margin-bottom:10px\"><strong>" ++ escO s.name?
  ++ "</strong><div style=\"color:#9fb2c8\">" ++ escO s.designation? ++ "</div></div>"

def modernPartnerHtml (p : RPartner) : String :=
  "<div><img src=\"" ++ escO p.logo? ++ "\" style=\"height:40px\" alt=\""
  ++ escO p.name? ++ "\"/></div>"

/-- The hero-background interpolation
`${event.bannerUrl ? `url('${escapeHtml(event.bannerUrl)}') center/cover` : '#111'}`. -/
def modernHeroBg (bannerUrl? : Option String) : String :=
  if truthyS bannerUrl? then
    "url(\x27" ++ escO bannerUrl? ++ "\x27) center/cover"
  else "#111"

def mHead1 : String :=
  "\n  <!doctype html>\n  <html><head><meta charset=\"utf-8\"><meta name=\"viewport\" content=\"width=device-width,initial-scale=1\">\n  <title>"

def mStyle1 : String :=
  "</title>\n  <style>\n    body\x7bfont-family:Inter,system-ui,Arial;background:#0f172a;color:#e6eef8;margin:0\x7d\n    .hero\x7bbackground:"

def mStyle2 : String :=
  ";min-height:320px;display:flex;align-items:center;justify-content:center\x7d\n    .hero h1\x7bbackground:rgba(0,0,0,0.45);padding:16px;border-radius:8px\x7d\n    .container\x7bpadding:28px;max-width:1000px;margin:0 auto\x7d\n    .card\x7bbackground:#071029;padding:18px;border-radius:12px;margin-bottom:18px\x7d\n    a.btn\x7bdisplay:inline-block;padding:8px 12px;background:#06b6d4;color:#001; border-radius:8px;text-decoration:none\x7d\n    .grid\x7bdisplay:grid;grid-template-columns:1fr 320px;gap:18px\x7d\n    @media(max-width:900px)\x7b .grid\x7bgrid-template-columns:1fr\x7d \x7d\n  </style>\n  </head><body>\n    <div class=\"hero\"><h1>"

def mAbout1 : String :=
  "</h1></div>\n    <div class=\"container\">\n      <div class=\"grid\">\n        <div>\n          <div class=\"card\"><h2>About</h2><p>"

def mAgenda1 : String :=
  "</p></div>\n          <div class=\"card\"><h2>Agenda</h2>"

def mSpeakers1 : String :=
  "</div>\n          <div class=\"card\"><h2>Speakers</h2>"

def mContact1 : String :=
  "</div>\n        </div>\n        <aside>\n          <div class=\"card\"><h3>Contact</h3><div>"

def mContact2 : String :=
  "</div><div><a class=\"btn\" href=\"mailto:"

def mContact3 : String :=
  "\">Email</a></div></div>\n          <div class=\"card\"><h3>Partners</h3>"

def mTail : String :=
  "</div>\n        </aside>\n      </div>\n    </div>\n  </body></html>\n  "

/-- `renderModern`: the alternative template. -/
def renderModern (event : REvent) : String :=
  mHead1 ++ escapeHtml (jsOrS event.title? "Event")
  ++ mStyle1 ++ modernHeroBg event.bannerUrl?
  ++ mStyle2 ++ escapeHtml (jsOrS event.title? "")
  ++ mAbout1 ++ escapeHtml (jsOrS event.description? "")
  ++ mAgenda1 ++ String.join (event.agenda.map modernAgendaHtml)
  ++ mSpeakers1 ++ String.join (event.speakers.map modernSpeakerHtml)
  ++ mContact1 ++ escapeHtml (jsOrS event.organizer? "")
  ++ mContact2 ++ escapeHtml (jsOrS event.email? "")
  ++ mContact3 ++ String.join (event.partners.map modernPartnerHtml)
  ++ mTail

structure RenderResp where
  statusCode : Nat
  contentType : String
  body : String
deriving Repr

/-- The render `handler`: resolve `eventId` from path or query, 400 when it is
missing, 404 when the record is absent, otherwise render the template selected
by the record's `template` field (default classic). -/
def renderHandler (pathEventId? queryEventId? : Option String) (st : Store) :
    RenderResp :=
  let eventId? := jsOrOO pathEventId? queryEventId?
  if !truthyS eventId? then
    ⟨400, "text/plain",
      "Missing eventId (provide path parameter /event/\x7beventId\x7d or ?eventId=...)"⟩
  else
    match storeGet st (eventId?.getD "") with
    | none => ⟨404, "text/plain", "Event not found"⟩
    | some item =>
      let ev := toREvent item
      let template := jsToLower (jsOrS ev.template? "classic")
      let html := if template = "modern" then renderModern ev else renderClassic ev
      ⟨200, "text/html; charset=utf-8", html⟩

/-! ## Shared concrete environments and item observations -/

/-- An environment where every collaborator call succeeds and no race is lost. -/
def envAllOk : Env :=
  { up := fun _ => .success
    aggTimeout := false
    uuid := "id-1"
    now := 1700000000000
    region := "us-east-1"
    store := [] }

/-- Field access inside a marshalled `M` attribute. -/
def mapGetS (a : Attr) (key : String) : Option String :=
  match a with
  | .m m => getS m key
  | _ => none

def itemSpeakersLen (it : Item) : Nat :=
  match getAttr it "speakers" with
  | some (.l l) => l.length
  | _ => 0

def itemSponsorsLen (it : Item) : Nat :=
  match getAttr it "sponsors" with
  | some (.l l) => l.length
  | _ => 0

/-! ## C8: unknown eventId on the render endpoint -/

/-- C8: for every GET request to the render endpoint whose eventId is present
but does not identify any stored record, the handler returns status 404 with
Content-Type `text/plain` and body exactly "Event not found". -/
theorem claim_C8 (pathEventId? queryEventId? : Option String) (st : Store)
    (eid : String) (hres : jsOrOO pathEventId? queryEventId? = some eid)
    (hne : eid ≠ "") (habs : storeGet st eid = none) :
    renderHandler pathEventId? queryEventId? st =
      ⟨404, "text/plain", "Event not found"⟩ := by
  unfold renderHandler
  rw [hres]
  simp [truthyS, hne, habs]

theorem claim_C8_witness :
    jsOrOO none (some "missing-id") = some "missing-id" ∧
    "missing-id" ≠ "" ∧
    storeGet [] "missing-id" = none ∧
    renderHandler none (some "missing-id") [] =
      ⟨404, "text/plain", "Event not found"⟩ :=
  ⟨rfl, by decide, rfl,
    claim_C8 none (some "missing-id") [] "missing-id" rfl (by decide) rfl⟩

/-! ## C4: validation taxonomy versus what the handlers actually run -/

/-- A request whose template selector is invalid (`"3"` is neither `"1"` nor
`"2"`), with the other required fields present and well-formed. -/
def badTemplateBody : ReqBody :=
  { eventName? := some "Conf"
    eventDate? := some "2025-01-01"
    selectedTemplate? := some "3" }

/-- C4: the legacy module's own `validateEventData` rejects this request, yet
the handler (which never calls it) uploads nothing, writes the record, and
returns 201 — not 400 with no write as the claim requires. -/
theorem claim_C4_code_bug :
    validateEventData badTemplateBody =
      .error "Invalid template selection. Must be \"1\" or \"2\""
    ∧ (legacyHandler (.body badTemplateBody) envAllOk).resp.statusCode = 201
    ∧ (legacyHandler (.body badTemplateBody) envAllOk).trace =
        [.ddbPut TABLE "id-1"]
    ∧ storeGet (legacyHandler (.body badTemplateBody) envAllOk).store "id-1" =
        some ((legacyItemAndEffects envAllOk badTemplateBody "id-1" 1700000000000).1) :=
  ⟨rfl, rfl, rfl, rfl⟩

/-! ## C5: length caps on persisted speaker/sponsor lists -/

/-- C5 (amended): every record built by the fast-path `createEventRecord`
carries at most 5 speakers and at most 10 sponsors, for arbitrary normalized
bodies and asset-pipeline outputs. -/
theorem claim_C5_amended (nb : NormBody) (eventId : String) (ts : Nat)
    (assets : Assets) :
    itemSpeakersLen (fastDbItem nb eventId ts assets) ≤ 5
    ∧ itemSponsorsLen (fastDbItem nb eventId ts assets) ≤ 10 := by
  have hs : getAttr (fastDbItem nb eventId ts assets) "speakers"
      = some (.l ((assets.speakers.take 5).map fun s =>
          .m [ ("name", .s (sOr s.name "")),
               ("role", .s (sOr s.role "")),
               ("topic", .s (sOr s.topic "")),
               ("photo", .s (sOr s.url "")),
               ("featured", .bool s.featured) ])) := rfl
  have hp : getAttr (fastDbItem nb eventId ts assets) "sponsors"
      = some (.l ((assets.sponsors.take 10).map fun s =>
          .m [ ("name", .s (sOr s.name "")),
               ("logo", .s (sOr s.url "")),
               ("website", .s (sOr s.website "")),
               ("tier", .s (sOr s.tier "silver")) ])) := rfl
  constructor
  · simp only [itemSpeakersLen, hs, List.length_map]
    exact List.length_take_le 5 assets.speakers
  · simp only [itemSponsorsLen, hp, List.length_map]
    exact List.length_take_le 10 assets.sponsors

/-- A request with six speakers. -/
def sixSpeakersBody : ReqBody :=
  { speakers? := some (List.replicate 6 {}) }

/-- C5 counterexample: the legacy create handler persists all six input
speakers — the stored record's speakers list has more than 5 entries. -/
theorem claim_C5_counterexample :
    5 < (match storeGet (legacyHandler (.body sixSpeakersBody) envAllOk).store "id-1" with
         | some it => itemSpeakersLen it
         | none => 0) := by
  decide

/-! ## C3: colliding identifier on record creation -/

/-- C3 (amended): for the fast-path handler, a write against an existing
eventId fails the conditional put; the handler surfaces an error (500)
response and the stored record is unchanged. -/
theorem claim_C3_amended (b : ReqBody) (env : Env) (old : Item)
    (hv : validateRequiredFields (normalizeRequestBody b) = [])
    (hcol : storeGet env.store env.uuid = some old) :
    (fastHandler (.plain b) env).resp.statusCode = 500
    ∧ (fastHandler (.plain b) env).store = env.store
    ∧ storeGet (fastHandler (.plain b) env).store env.uuid = some old := by
  unfold fastHandler validateAndParseRequest
  simp only [hv, ne_eq, not_true_eq_false, if_false]
  unfold condPut
  rw [hcol]
  exact ⟨rfl, rfl, hcol⟩

/-- A pre-existing record, distinguishable by its `marker` field. -/
def oldItemC3 : Item := [("eventId", .s "id-1"), ("marker", .s "old")]

def envC3 : Env :=
  { up := fun _ => .success
    aggTimeout := false
    uuid := "id-1"
    now := 5
    region := "us-east-1"
    store := [("id-1", oldItemC3)] }

/-- C3 counterexample: the legacy create handler writes unconditionally: with
a colliding generated eventId it still answers 201 and the record now
retrievable under that id is the new one (the old record's `marker` field is
gone) — a silent overwrite. -/
theorem claim_C3_counterexample :
    (legacyHandler (.body {}) envC3).resp.statusCode = 201
    ∧ (storeGet envC3.store "id-1").map (fun it => getS it "marker")
        = some (some "old")
    ∧ (storeGet (legacyHandler (.body {}) envC3).store "id-1").map
        (fun it => getS it "marker") = some none :=
  ⟨rfl, rfl, rfl⟩

theorem claim_C3_witness :
    validateRequiredFields (normalizeRequestBody badTemplateBody) = []
    ∧ storeGet envC3.store envC3.uuid = some oldItemC3
    ∧ (fastHandler (.plain badTemplateBody) envC3).resp.statusCode = 500
    ∧ (fastHandler (.plain badTemplateBody) envC3).store = envC3.store :=
  ⟨by decide, rfl, (claim_C3_amended badTemplateBody envC3 oldItemC3 (by decide) rfl).1,
    (claim_C3_amended badTemplateBody envC3 oldItemC3 (by decide) rfl).2.1⟩

/-! ## C1: aggregate timeout falls back to empty assets, ingestion still 201 -/

/-- C1: if the aggregate `UPLOAD_TIMEOUT` race is lost before asset processing
settles, `processAssetsWithTimeout` returns the canonical fallback record
(every asset URL empty, all per-entity lists empty) and the handler still
writes the record built from that fallback and answers 201. -/
theorem claim_C1 (b : ReqBody) (env : Env)
    (ht : env.aggTimeout = true)
    (hv : validateRequiredFields (normalizeRequestBody b) = [])
    (hfree : storeGet env.store env.uuid = none) :
    (processAssetsWithTimeout (normalizeRequestBody b) env.uuid env).1 = fallbackAssets
    ∧ fallbackAssets.eventLogo = "" ∧ fallbackAssets.heroImage = ""
    ∧ fallbackAssets.footerLogo = "" ∧ fallbackAssets.banner = ""
    ∧ fallbackAssets.speakers = [] ∧ fallbackAssets.sponsors = []
    ∧ fallbackAssets.galleryItems = []
    ∧ (fastHandler (.plain b) env).resp.statusCode = 201
    ∧ storeGet (fastHandler (.plain b) env).store env.uuid
        = some (fastDbItem (normalizeRequestBody b) env.uuid env.now fallbackAssets) := by
  have hpa : (processAssetsWithTimeout (normalizeRequestBody b) env.uuid env).1
      = fallbackAssets := by
    unfold processAssetsWithTimeout
    rw [ht]
    simp
  have hrun : fastHandler (.plain b) env =
      ⟨⟨201, .created env.uuid⟩,
        (env.uuid,
          fastDbItem (normalizeRequestBody b) env.uuid env.now fallbackAssets) :: env.store,
        (processAssetsWithTimeout (normalizeRequestBody b) env.uuid env).2
          ++ [.ddbPut TABLE env.uuid]⟩ := by
    unfold fastHandler validateAndParseRequest
    simp only [hv, ne_eq, not_true_eq_false, if_false]
    rw [hpa]
    unfold condPut
    rw [hfree]
  refine ⟨hpa, rfl, rfl, rfl, rfl, rfl, rfl, rfl, ?_, ?_⟩
  · rw [hrun]
  · rw [hrun]
    unfold storeGet
    simp

/-- A minimal valid request for the fast-path handler. -/
def validBodyC1 : ReqBody :=
  { eventName? := some "Conf"
    eventDate? := some "2025-01-01"
    selectedTemplate? := some "1" }

def envTimeoutC1 : Env :=
  { up := fun _ => .success
    aggTimeout := true
    uuid := "id-1"
    now := 1700000000000
    region := "us-east-1"
    store := [] }

theorem claim_C1_witness :
    envTimeoutC1.aggTimeout = true
    ∧ validateRequiredFields (normalizeRequestBody validBodyC1) = []
    ∧ storeGet envTimeoutC1.store envTimeoutC1.uuid = none
    ∧ (processAssetsWithTimeout (normalizeRequestBody validBodyC1)
        envTimeoutC1.uuid envTimeoutC1).1 = fallbackAssets
    ∧ (fastHandler (.plain validBodyC1) envTimeoutC1).resp.statusCode = 201 :=
  ⟨rfl, by decide, rfl,
    (claim_C1 validBodyC1 envTimeoutC1 rfl (by decide) rfl).1,
    (claim_C1 validBodyC1 envTimeoutC1 rfl (by decide) rfl).2.2.2.2.2.2.2.2.1⟩

/-! ## C2: size ceiling and failure swallowing in the asset pipeline -/

theorem fastS3Url_ne_empty (region key : String) : fastS3Url region key ≠ "" := by
  intro h
  have hh := congrArg String.data h
  simp only [fastS3Url, String.data_append] at hh
  exact absurd hh (by simp)

theorem validateAssetSize_of_match {s mime payload : String}
    (hmatch : fastImageMatch s = some (mime, payload)) :
    validateAssetSize s = !(decide (3 * payload.length > 4 * MAX_ASSET_SIZE)) := by
  unfold validateAssetSize
  rw [hmatch]

theorem uploadToS3Fast_of_match {s mime payload : String} (env : Env)
    (keyPrefix : String) (hmatch : fastImageMatch s = some (mime, payload)) :
    uploadToS3Fast env s keyPrefix =
      (match env.up (keyPrefix ++ "." ++ jsOrS ((splitSlash mime)[1]?) "jpg") with
       | .success =>
         (.ok (fastS3Url env.region
            (keyPrefix ++ "." ++ jsOrS ((splitSlash mime)[1]?) "jpg")),
          [.s3Put (keyPrefix ++ "." ++ jsOrS ((splitSlash mime)[1]?) "jpg")])
       | .sendError =>
         (.error "send failed",
          [.s3Put (keyPrefix ++ "." ++ jsOrS ((splitSlash mime)[1]?) "jpg")])
       | .timeout =>
         (.error "Upload timeout",
          [.s3Put (keyPrefix ++ "." ++ jsOrS ((splitSlash mime)[1]?) "jpg")])) := by
  unfold uploadToS3Fast
  rw [hmatch]

theorem b64_ceiling_lt {n : Nat} (h : n < MAX_ASSET_SIZE) :
    3 * b64Len n ≤ 4 * MAX_ASSET_SIZE := by
  unfold b64Len MAX_ASSET_SIZE at *
  omega

theorem b64_ceiling_ge {n : Nat} (h : MAX_ASSET_SIZE ≤ n) :
    4 * MAX_ASSET_SIZE < 3 * b64Len n := by
  unfold b64Len MAX_ASSET_SIZE at *
  omega

/-- C2: for a syntactically valid `data:image/...;base64,` input whose payload
is the padded base64 encoding of `n` bytes: if `n` is under the 1 MiB ceiling
and the S3 upload settles successfully, the pipeline returns a non-empty URL;
if `n` is at or above the ceiling it returns the empty string; and on every
input and every collaborator outcome the result is a plain string (either
empty or an S3 URL), never a thrown error. -/
theorem claim_C2 (s mime payload keyPrefix : String) (n : Nat) (env : Env)
    (hmatch : fastImageMatch s = some (mime, payload))
    (hlen : payload.length = b64Len n) :
    (n < MAX_ASSET_SIZE → (∀ k, env.up k = .success) →
      (uploadWithTimeout env s keyPrefix).1 ≠ "")
    ∧ (MAX_ASSET_SIZE ≤ n → (uploadWithTimeout env s keyPrefix).1 = "")
    ∧ (∀ (t k : String),
        (uploadWithTimeout env t k).1 = "" ∨
        ∃ key, (uploadWithTimeout env t k).1 = fastS3Url env.region key) := by
  have hs : s ≠ "" := by
    intro h
    have hnone : fastImageMatch "" = none := rfl
    rw [h, hnone] at hmatch
    exact Option.noConfusion hmatch
  have hgen : ∀ (t k : String),
      (uploadWithTimeout env t k).1 = "" ∨
      ∃ key, (uploadWithTimeout env t k).1 = fastS3Url env.region key := by
    intro t k
    unfold uploadWithTimeout
    by_cases hc : (t = "" || !validateAssetSize t) = true
    · rw [if_pos hc]
      exact Or.inl rfl
    · rw [if_neg hc]
      cases hfm : fastImageMatch t with
      | none =>
        unfold uploadToS3Fast
        rw [hfm]
        exact Or.inl rfl
      | some p =>
        obtain ⟨ct, dd⟩ := p
        rw [uploadToS3Fast_of_match env k hfm]
        cases hup : env.up (k ++ "." ++ jsOrS ((splitSlash ct)[1]?) "jpg") with
        | success =>
          exact Or.inr ⟨k ++ "." ++ jsOrS ((splitSlash ct)[1]?) "jpg", rfl⟩
        | sendError => exact Or.inl rfl
        | timeout => exact Or.inl rfl
  refine ⟨?_, ?_, hgen⟩
  · intro hn hok
    have hval : validateAssetSize s = true := by
      rw [validateAssetSize_of_match hmatch, hlen]
      simp only [gt_iff_lt, Bool.not_eq_true', decide_eq_false_iff_not, not_lt]
      exact b64_ceiling_lt hn
    unfold uploadWithTimeout
    rw [if_neg (by simp [hs, hval])]
    rw [uploadToS3Fast_of_match env keyPrefix hmatch, hok]
    exact fastS3Url_ne_empty _ _
  · intro hn
    have hval : validateAssetSize s = false := by
      rw [validateAssetSize_of_match hmatch, hlen]
      simp only [gt_iff_lt, Bool.not_eq_false', decide_eq_true_eq]
      exact b64_ceiling_ge hn
    unfold uploadWithTimeout
    rw [if_pos (by simp [hval])]

def c2input : String := "data:image/png;base64,AAAA"

theorem claim_C2_witness :
    fastImageMatch c2input = some ("image/png", "AAAA")
    ∧ "AAAA".length = b64Len 2
    ∧ 2 < MAX_ASSET_SIZE
    ∧ (uploadWithTimeout envAllOk c2input "banners/id-1_banner").1 ≠ "" :=
  ⟨rfl, by decide, by decide,
    (claim_C2 c2input "image/png" "AAAA" "banners/id-1_banner" 2 envAllOk rfl
      (by decide)).1 (by decide) (fun _ => rfl)⟩

/-! ## C9: the record write is issued only after asset processing settles -/

theorem uploadWithTimeout_trace_s3 (env : Env) (d k : String) :
    ∀ e ∈ (uploadWithTimeout env d k).2, ∃ key, e = .s3Put key := by
  intro e he
  unfold uploadWithTimeout at he
  by_cases hc : (d = "" || !validateAssetSize d) = true
  · rw [if_pos hc] at he
    exact absurd he (List.not_mem_nil e)
  · rw [if_neg hc] at he
    cases hfm : fastImageMatch d with
    | none =>
      unfold uploadToS3Fast at he
      rw [hfm] at he
      exact absurd he (List.not_mem_nil e)
    | some p =>
      obtain ⟨ct, dd⟩ := p
      rw [uploadToS3Fast_of_match env k hfm] at he
      cases hup : env.up (k ++ "." ++ jsOrS ((splitSlash ct)[1]?) "jpg") with
      | success =>
        rw [hup] at he
        simp at he
        exact ⟨_, he⟩
      | sendError =>
        rw [hup] at he
        simp at he
        exact ⟨_, he⟩
      | timeout =>
        rw [hup] at he
        simp at he
        exact ⟨_, he⟩

theorem processAssetsQuickly_trace_s3 (body : NormBody) (eventId : String)
    (env : Env) :
    ∀ e ∈ (processAssetsQuickly body eventId env).2, ∃ key, e = .s3Put key := by
  intro e he
  unfold processAssetsQuickly at he
  simp only [List.mem_append] at he
  rcases he with he | he
  · by_cases hq : (truthyS (jsOrOO body.bannerBase64 body.heroImage)
        && validateAssetSize ((jsOrOO body.bannerBase64 body.heroImage).getD "")) = true
    · rw [if_pos hq] at he
      exact uploadWithTimeout_trace_s3 env _ _ e he
    · rw [if_neg hq] at he
      exact absurd he (List.not_mem_nil e)
  · by_cases hq : (truthyS body.eventLogo
        && validateAssetSize (body.eventLogo.getD "")) = true
    · rw [if_pos hq] at he
      exact uploadWithTimeout_trace_s3 env _ _ e he
    · rw [if_neg hq] at he
      exact absurd he (List.not_mem_nil e)

theorem processAssetsWithTimeout_trace_s3 (body : NormBody) (eventId : String)
    (env : Env) :
    ∀ e ∈ (processAssetsWithTimeout body eventId env).2, ∃ key, e = .s3Put key := by
  intro e he
  unfold processAssetsWithTimeout at he
  by_cases ht : env.aggTimeout = true
  · rw [ht] at he
    simp at he
    exact processAssetsQuickly_trace_s3 body eventId env e he
  · rw [Bool.not_eq_true] at ht
    rw [ht] at he
    simp at he
    exact processAssetsQuickly_trace_s3 body eventId env e he

theorem s3_before_ddb_in_concat {l : List Effect} {tb eid k t id : String}
    {i j : Nat}
    (hl : ∀ e ∈ l, ∃ key, e = .s3Put key)
    (hi : (l ++ [Effect.ddbPut tb eid])[i]? = some (.s3Put k))
    (hj : (l ++ [Effect.ddbPut tb eid])[j]? = some (.ddbPut t id)) :
    i < j := by
  have hj' : j = l.length := by
    rcases Nat.lt_trichotomy j l.length with h | h | h
    · rw [List.getElem?_append_left h] at hj
      obtain ⟨key, hkey⟩ := hl _ (List.getElem?_mem hj)
      exact absurd hkey (by simp)
    · exact h
    · have hlen : (l ++ [Effect.ddbPut tb eid]).length ≤ j := by
        simp only [List.length_append, List.length_singleton]
        omega
      rw [List.getElem?_eq_none hlen] at hj
      exact Option.noConfusion hj
  have hi' : i < l.length := by
    rcases Nat.lt_or_ge i l.length with h | h
    · exact h
    · rcases Nat.eq_or_lt_of_le h with h2 | h2
      · rw [← h2, List.getElem?_concat_length] at hi
        simp at hi
      · have hlen : (l ++ [Effect.ddbPut tb eid]).length ≤ i := by
          simp only [List.length_append, List.length_singleton]
          omega
        rw [List.getElem?_eq_none hlen] at hi
        exact Option.noConfusion hi
  omega

theorem fastHandler_trace_cases (event : FastReqEvent) (env : Env) :
    (fastHandler event env).trace = []
    ∨ ∃ nb : NormBody, (fastHandler event env).trace =
        (processAssetsWithTimeout nb env.uuid env).2
          ++ [Effect.ddbPut TABLE env.uuid] := by
  unfold fastHandler
  split
  · exact Or.inl rfl
  · dsimp only
    split
    · exact Or.inl rfl
    · split
      · exact Or.inr ⟨_, rfl⟩
      · exact Or.inr ⟨_, rfl⟩

/-- C9: in every fast-path invocation, every S3 upload effect in the trace
precedes every DynamoDB record-write effect — the record write is issued only
after asset processing has settled (with its value or the timeout fallback). -/
theorem claim_C9 (event : FastReqEvent) (env : Env) (i j : Nat)
    (k t id : String)
    (hi : (fastHandler event env).trace[i]? = some (.s3Put k))
    (hj : (fastHandler event env).trace[j]? = some (.ddbPut t id)) :
    i < j := by
  rcases fastHandler_trace_cases event env with h | ⟨nb, h⟩
  · rw [h] at hi
    simp at hi
  · rw [h] at hi hj
    exact s3_before_ddb_in_concat
      (processAssetsWithTimeout_trace_s3 nb env.uuid env) hi hj

/-- A valid request carrying one essential asset. -/
def bodyC9 : ReqBody :=
  { eventName? := some "Conf"
    eventDate? := some "2025-01-01"
    selectedTemplate? := some "1"
    bannerBase64? := some "data:image/png;base64,AAAA" }

theorem claim_C9_witness :
    (fastHandler (.plain bodyC9) envAllOk).trace[0]? =
      some (.s3Put "banners/id-1_banner.png")
    ∧ (fastHandler (.plain bodyC9) envAllOk).trace[1]? =
      some (.ddbPut "Events" "id-1")
    ∧ 0 < 1 :=
  ⟨by decide, by decide,
    claim_C9 (.plain bodyC9) envAllOk 0 1 "banners/id-1_banner.png" "Events" "id-1"
      (by decide) (by decide)⟩

/-! ## C10: field-name mismatch between the create handlers and the renderer -/

theorem mapWithEffects_mem {α : Type} (f : Nat → α → Attr × List Effect)
    (P : Attr → Prop) (h : ∀ i x, P (f i x).1) :
    ∀ (i : Nat) (l : List α) (a : Attr), a ∈ (mapWithEffects f i l).1 → P a := by
  intro i l
  induction l generalizing i with
  | nil =>
    intro a ha
    simp [mapWithEffects] at ha
  | cons x xs ih =>
    intro a ha
    simp only [mapWithEffects] at ha
    rcases List.mem_cons.1 ha with h1 | h2
    · rw [h1]
      exact h i x
    · exact ih (i + 1) a h2

/-- C10: the renderer reads `template`, `title`, `bannerUrl`, `date`, and (per
speaker) `designation`; neither create handler ever writes those keys — they
write `selectedTemplate`, `eventName`, `heroImage`, `eventDate`, `role`.
Consequently every record these handlers create is rendered by the classic
template with title "Untitled Event" and without a banner image, regardless
of what the caller submitted. -/
theorem claim_C10 (nb : NormBody) (eventId : String) (ts : Nat)
    (assets : Assets) (env : Env) (b : ReqBody) (idL : String) (tsL : Nat) :
    getAttr (fastDbItem nb eventId ts assets) "template" = none
    ∧ getAttr (fastDbItem nb eventId ts assets) "title" = none
    ∧ getAttr (fastDbItem nb eventId ts assets) "bannerUrl" = none
    ∧ getAttr (fastDbItem nb eventId ts assets) "date" = none
    ∧ (attrListOf (fastDbItem nb eventId ts assets) "speakers").Forall
        (fun a => mapGetS a "designation" = none)
    ∧ getAttr ((legacyItemAndEffects env b idL tsL).1) "template" = none
    ∧ getAttr ((legacyItemAndEffects env b idL tsL).1) "title" = none
    ∧ getAttr ((legacyItemAndEffects env b idL tsL).1) "bannerUrl" = none
    ∧ getAttr ((legacyItemAndEffects env b idL tsL).1) "date" = none
    ∧ (attrListOf ((legacyItemAndEffects env b idL tsL).1) "speakers").Forall
        (fun a => mapGetS a "designation" = none)
    ∧ jsToLower (jsOrS (toREvent (fastDbItem nb eventId ts assets)).template?
        "classic") = "classic"
    ∧ jsOrS (toREvent (fastDbItem nb eventId ts assets)).title? "Untitled Event"
        = "Untitled Event"
    ∧ classicBannerImgTag
        (escapeHtml (jsOrS (toREvent (fastDbItem nb eventId ts assets)).title?
          "Untitled Event"))
        (jsOrS (toREvent (fastDbItem nb eventId ts assets)).bannerUrl? "") = ""
    ∧ jsToLower (jsOrS (toREvent ((legacyItemAndEffects env b idL tsL).1)).template?
        "classic") = "classic"
    ∧ jsOrS (toREvent ((legacyItemAndEffects env b idL tsL).1)).title?
        "Untitled Event" = "Untitled Event"
    ∧ classicBannerImgTag
        (escapeHtml (jsOrS (toREvent ((legacyItemAndEffects env b idL tsL).1)).title?
          "Untitled Event"))
        (jsOrS (toREvent ((legacyItemAndEffects env b idL tsL).1)).bannerUrl? "")
        = "" := by
  refine ⟨rfl, rfl, rfl, rfl, ?_, rfl, rfl, rfl, rfl, ?_,
    rfl, rfl, rfl, rfl, rfl, rfl⟩
  · have h : attrListOf (fastDbItem nb eventId ts assets) "speakers"
        = (assets.speakers.take 5).map (fun s =>
            Attr.m [ ("name", .s (sOr s.name "")),
                     ("role", .s (sOr s.role "")),
                     ("topic", .s (sOr s.topic "")),
                     ("photo", .s (sOr s.url "")),
                     ("featured", .bool s.featured) ]) := rfl
    rw [h, List.forall_iff_forall_mem]
    intro a ha
    rcases List.mem_map.1 ha with ⟨s, _, rfl⟩
    rfl
  · have h : attrListOf ((legacyItemAndEffects env b idL tsL).1) "speakers"
        = (mapWithEffects (legacySpeakerAttr env idL) 0 (b.speakers?.getD [])).1 := rfl
    rw [h, List.forall_iff_forall_mem]
    intro a ha
    exact mapWithEffects_mem (legacySpeakerAttr env idL)
      (fun a => mapGetS a "designation" = none) (fun i x => rfl) 0 _ a ha

/-! ## C6: persisted asset URLs come from successful uploads or are empty -/

/-- An acceptable persisted asset reference: the empty string, or the public
URL of an object whose S3 `send` succeeded in this environment. -/
def UrlOk (env : Env) (s : String) : Prop :=
  s = "" ∨ ∃ key, env.up key = .success ∧
    (s = fastS3Url env.region key ∨ s = legacyS3Url key)

def urlOkO (env : Env) : Option String → Prop
  | some v => UrlOk env v
  | none => True

theorem urlOk_empty (env : Env) : UrlOk env "" := Or.inl rfl

theorem urlOk_sOr_empty {env : Env} {a : String} (h : UrlOk env a) :
    UrlOk env (sOr a "") := by
  unfold sOr
  split
  · exact Or.inl rfl
  · exact h

theorem uploadWithTimeout_result (env : Env) (d k : String) :
    UrlOk env (uploadWithTimeout env d k).1 := by
  unfold uploadWithTimeout
  by_cases hc : (d = "" || !validateAssetSize d) = true
  · rw [if_pos hc]
    exact urlOk_empty env
  · rw [if_neg hc]
    cases hfm : fastImageMatch d with
    | none =>
      unfold uploadToS3Fast
      rw [hfm]
      exact urlOk_empty env
    | some p =>
      obtain ⟨ct, dd⟩ := p
      rw [uploadToS3Fast_of_match env k hfm]
      cases hup : env.up (k ++ "." ++ jsOrS ((splitSlash ct)[1]?) "jpg") with
      | success => exact Or.inr ⟨_, hup, Or.inl rfl⟩
      | sendError => exact urlOk_empty env
      | timeout => exact urlOk_empty env

theorem uploadImage_result (env : Env) (d k : String) :
    UrlOk env (uploadImage env d k).1 := by
  unfold uploadImage
  split
  · exact urlOk_empty env
  · split
    · exact urlOk_empty env
    · dsimp only
      split
      next h => exact Or.inr ⟨_, h, Or.inr rfl⟩
      next h => exact urlOk_empty env

theorem uploadIf_result (env : Env) (o : Option String) (k : String) :
    UrlOk env (uploadIf env o k).1 := by
  unfold uploadIf
  split
  · split
    · exact urlOk_empty env
    · exact uploadImage_result env _ _
  · exact urlOk_empty env

theorem paq_banner_urlOk (nb : NormBody) (eventId : String) (env : Env) :
    UrlOk env (processAssetsQuickly nb eventId env).1.banner := by
  unfold processAssetsQuickly
  dsimp only
  split
  · exact uploadWithTimeout_result env _ _
  · exact urlOk_empty env

theorem paq_eventLogo_urlOk (nb : NormBody) (eventId : String) (env : Env) :
    UrlOk env (processAssetsQuickly nb eventId env).1.eventLogo := by
  unfold processAssetsQuickly
  dsimp only
  split
  · exact uploadWithTimeout_result env _ _
  · exact urlOk_empty env

theorem pawt_banner_urlOk (nb : NormBody) (eventId : String) (env : Env) :
    UrlOk env (processAssetsWithTimeout nb eventId env).1.banner := by
  unfold processAssetsWithTimeout
  dsimp only
  split
  · exact urlOk_empty env
  · exact paq_banner_urlOk nb eventId env

theorem pawt_eventLogo_urlOk (nb : NormBody) (eventId : String) (env : Env) :
    UrlOk env (processAssetsWithTimeout nb eventId env).1.eventLogo := by
  unfold processAssetsWithTimeout
  dsimp only
  split
  · exact urlOk_empty env
  · exact paq_eventLogo_urlOk nb eventId env

theorem pawt_heroImage_empty (nb : NormBody) (eventId : String) (env : Env) :
    (processAssetsWithTimeout nb eventId env).1.heroImage = "" := by
  unfold processAssetsWithTimeout
  dsimp only
  split
  · rfl
  · rfl

theorem pawt_speakers_url_empty (nb : NormBody) (eventId : String) (env : Env) :
    ∀ s ∈ (processAssetsWithTimeout nb eventId env).1.speakers, s.url = "" := by
  unfold processAssetsWithTimeout
  dsimp only
  split
  · intro s hs
    simp [fallbackAssets] at hs
  · unfold processAssetsQuickly
    dsimp only
    intro s hs
    rcases List.mem_map.1 hs with ⟨x, _, rfl⟩
    rfl

theorem pawt_sponsors_url_empty (nb : NormBody) (eventId : String) (env : Env) :
    ∀ s ∈ (processAssetsWithTimeout nb eventId env).1.sponsors, s.url = "" := by
  unfold processAssetsWithTimeout
  dsimp only
  split
  · intro s hs
    simp [fallbackAssets] at hs
  · unfold processAssetsQuickly
    dsimp only
    intro s hs
    rcases List.mem_map.1 hs with ⟨x, _, rfl⟩
    rfl

/-- C6: in every record either create handler builds, each embedded asset URL
(eventLogo, heroImage, footerLogo, per-speaker photo, per-sponsor logo,
per-gallery-item src) is either the URL of an object whose S3 upload
succeeded, or the empty string — never a reference to a failed upload. -/
theorem claim_C6 (env : Env) (nb : NormBody) (eventId : String) (ts : Nat)
    (b : ReqBody) (idL : String) (tsL : Nat) :
    urlOkO env (getS (fastDbItem nb eventId ts
      (processAssetsWithTimeout nb eventId env).1) "eventLogo")
    ∧ urlOkO env (getS (fastDbItem nb eventId ts
      (processAssetsWithTimeout nb eventId env).1) "heroImage")
    ∧ (attrListOf (fastDbItem nb eventId ts
        (processAssetsWithTimeout nb eventId env).1) "speakers").Forall
        (fun a => urlOkO env (mapGetS a "photo"))
    ∧ (attrListOf (fastDbItem nb eventId ts
        (processAssetsWithTimeout nb eventId env).1) "sponsors").Forall
        (fun a => urlOkO env (mapGetS a "logo"))
    ∧ urlOkO env (getS ((legacyItemAndEffects env b idL tsL).1) "eventLogo")
    ∧ urlOkO env (getS ((legacyItemAndEffects env b idL tsL).1) "heroImage")
    ∧ urlOkO env (getS ((legacyItemAndEffects env b idL tsL).1) "footerLogo")
    ∧ (attrListOf ((legacyItemAndEffects env b idL tsL).1) "speakers").Forall
        (fun a => urlOkO env (mapGetS a "photo"))
    ∧ (attrListOf ((legacyItemAndEffects env b idL tsL).1) "sponsors").Forall
        (fun a => urlOkO env (mapGetS a "logo"))
    ∧ (attrListOf ((legacyItemAndEffects env b idL tsL).1) "galleryItems").Forall
        (fun a => urlOkO env (mapGetS a "src")) := by
  refine ⟨?_, ?_, ?_, ?_, ?_, ?_, ?_, ?_, ?_, ?_⟩
  · show UrlOk env (sOr (processAssetsWithTimeout nb eventId env).1.eventLogo "")
    exact urlOk_sOr_empty (pawt_eventLogo_urlOk nb eventId env)
  · show UrlOk env (sOr (processAssetsWithTimeout nb eventId env).1.banner
      (sOr (processAssetsWithTimeout nb eventId env).1.heroImage ""))
    rw [pawt_heroImage_empty nb eventId env]
    unfold sOr
    split
    · split
      · exact urlOk_empty env
      · exact urlOk_empty env
    · exact pawt_banner_urlOk nb eventId env
  · rw [show attrListOf (fastDbItem nb eventId ts
        (processAssetsWithTimeout nb eventId env).1) "speakers"
        = ((processAssetsWithTimeout nb eventId env).1.speakers.take 5).map (fun s =>
            Attr.m [ ("name", .s (sOr s.name "")),
                     ("role", .s (sOr s.role "")),
                     ("topic", .s (sOr s.topic "")),
                     ("photo", .s (sOr s.url "")),
                     ("featured", .bool s.featured) ]) from rfl,
      List.forall_iff_forall_mem]
    intro a ha
    rcases List.mem_map.1 ha with ⟨s, hmem, rfl⟩
    show UrlOk env (sOr s.url "")
    rw [pawt_speakers_url_empty nb eventId env s (List.mem_of_mem_take hmem)]
    exact urlOk_empty env
  · rw [show attrListOf (fastDbItem nb eventId ts
        (processAssetsWithTimeout nb eventId env).1) "sponsors"
        = ((processAssetsWithTimeout nb eventId env).1.sponsors.take 10).map (fun s =>
            Attr.m [ ("name", .s (sOr s.name "")),
                     ("logo", .s (sOr s.url "")),
                     ("website", .s (sOr s.website "")),
                     ("tier", .s (sOr s.tier "silver")) ]) from rfl,
      List.forall_iff_forall_mem]
    intro a ha
    rcases List.mem_map.1 ha with ⟨s, hmem, rfl⟩
    show UrlOk env (sOr s.url "")
    rw [pawt_sponsors_url_empty nb eventId env s (List.mem_of_mem_take hmem)]
    exact urlOk_empty env
  · show UrlOk env (uploadIf env b.eventLogo? ("logos/" ++ idL ++ "_logo.jpg")).1
    exact uploadIf_result env _ _
  · show UrlOk env (uploadIf env b.heroImage? ("heroes/" ++ idL ++ "_hero.jpg")).1
    exact uploadIf_result env _ _
  · show UrlOk env (uploadIf env b.footerLogo? ("footers/" ++ idL ++ "_footer.jpg")).1
    exact uploadIf_result env _ _
  · rw [show attrListOf ((legacyItemAndEffects env b idL tsL).1) "speakers"
        = (mapWithEffects (legacySpeakerAttr env idL) 0 (b.speakers?.getD [])).1 from rfl,
      List.forall_iff_forall_mem]
    intro a ha
    refine mapWithEffects_mem (legacySpeakerAttr env idL)
      (fun a => urlOkO env (mapGetS a "photo")) (fun i x => ?_) 0 _ a ha
    show UrlOk env (uploadIf env x.photo?
      ("speakers/" ++ idL ++ "_speaker_" ++ toString i ++ ".jpg")).1
    exact uploadIf_result env _ _
  · rw [show attrListOf ((legacyItemAndEffects env b idL tsL).1) "sponsors"
        = (mapWithEffects (legacySponsorAttr env idL) 0 (b.sponsors?.getD [])).1 from rfl,
      List.forall_iff_forall_mem]
    intro a ha
    refine mapWithEffects_mem (legacySponsorAttr env idL)
      (fun a => urlOkO env (mapGetS a "logo")) (fun i x => ?_) 0 _ a ha
    show UrlOk env (uploadIf env x.logo?
      ("sponsors/" ++ idL ++ "_sponsor_" ++ toString i ++ ".jpg")).1
    exact uploadIf_result env _ _
  · rw [show attrListOf ((legacyItemAndEffects env b idL tsL).1) "galleryItems"
        = (mapWithEffects (legacyGalleryAttr env idL) 0 (b.galleryItems?.getD [])).1 from rfl,
      List.forall_iff_forall_mem]
    intro a ha
    refine mapWithEffects_mem (legacyGalleryAttr env idL)
      (fun a => urlOkO env (mapGetS a "src")) (fun i x => ?_) 0 _ a ha
    show UrlOk env (uploadIf env x.src?
      ("gallery/" ++ idL ++ "_gallery_" ++ toString i ++ "."
        ++ (if jsOrS x.type? "" = "video" then "mp4" else "jpg"))).1
    exact uploadIf_result env _ _

/-! ## C7: escaping at the renderer's interpolation sites

The amended property is content-independence of the page's tag structure: the
number of `<` characters in a rendered page does not change when every
user-controlled text/URL field is replaced by a harmless placeholder of the
same truthiness — possible only because every interpolation site passes
through `escapeHtml` (URL sites included). -/

def countC (c : Char) (s : String) : Nat := s.data.count c

theorem countC_append (c : Char) (a b : String) :
    countC c (a ++ b) = countC c a + countC c b := by
  simp [countC, String.data_append, List.count_append]

theorem countC_foldl (c : Char) (init : String) (l : List String) :
    countC c (l.foldl (· ++ ·) init) = countC c init + (l.map (countC c)).sum := by
  induction l generalizing init with
  | nil => simp
  | cons x xs ih =>
    simp only [List.foldl_cons, ih, countC_append, List.map_cons, List.sum_cons]
    omega

theorem countC_join (c : Char) (l : List String) :
    countC c (String.join l) = (l.map (countC c)).sum := by
  have h := countC_foldl c "" l
  rw [show countC c "" = 0 from rfl, Nat.zero_add] at h
  exact h

theorem count_replaceAllC (x c : Char) (r : List Char) (l : List Char)
    (hx : x ∉ r) :
    (replaceAllC l c r).count x = if x = c then 0 else l.count x := by
  induction l with
  | nil => simp [replaceAllC]
  | cons a as ih =>
    have hrl : replaceAllC (a :: as) c r
        = (if a = c then r else [a]) ++ replaceAllC as c r := by
      simp [replaceAllC]
    rw [hrl, List.count_append, ih]
    by_cases hac : a = c
    · rw [if_pos hac, List.count_eq_zero.2 hx]
      by_cases hxc : x = c
      · rw [if_pos hxc, if_pos hxc]
      · rw [if_neg hxc, if_neg hxc, List.count_cons]
        simp [List.count_cons]
        exact fun hh => hxc (hh ▸ hac)
    · rw [if_neg hac]
      by_cases hxc : x = c
      · rw [if_pos hxc, if_pos hxc]
        simp [List.count_cons]
        exact fun hh => hac (hh.trans hxc)
      · rw [if_neg hxc, if_neg hxc]
        simp [List.count_cons]
        omega

theorem countC_escapeHtml (s : String) :
    countC '<' (escapeHtml s) = 0 ∧ countC '>' (escapeHtml s) = 0
    ∧ countC '"' (escapeHtml s) = 0 ∧ countC '\x27' (escapeHtml s) = 0 := by
  unfold countC escapeHtml
  refine ⟨?_, ?_, ?_, ?_⟩
  · show (replaceAllC (replaceAllC (replaceAllC (replaceAllC
        (replaceAllC s.data '&' "&amp;".data) '<' "&lt;".data) '>' "&gt;".data)
        '"' "&quot;".data) '\x27' "&#39;".data).count '<' = 0
    rw [count_replaceAllC '<' '\x27' "&#39;".data _ (by decide), if_neg (by decide),
      count_replaceAllC '<' '"' "&quot;".data _ (by decide), if_neg (by decide),
      count_replaceAllC '<' '>' "&gt;".data _ (by decide), if_neg (by decide),
      count_replaceAllC '<' '<' "&lt;".data _ (by decide), if_pos rfl]
  · show (replaceAllC (replaceAllC (replaceAllC (replaceAllC
        (replaceAllC s.data '&' "&amp;".data) '<' "&lt;".data) '>' "&gt;".data)
        '"' "&quot;".data) '\x27' "&#39;".data).count '>' = 0
    rw [count_replaceAllC '>' '\x27' "&#39;".data _ (by decide), if_neg (by decide),
      count_replaceAllC '>' '"' "&quot;".data _ (by decide), if_neg (by decide),
      count_replaceAllC '>' '>' "&gt;".data _ (by decide), if_pos rfl]
  · show (replaceAllC (replaceAllC (replaceAllC (replaceAllC
        (replaceAllC s.data '&' "&amp;".data) '<' "&lt;".data) '>' "&gt;".data)
        '"' "&quot;".data) '\x27' "&#39;".data).count '"' = 0
    rw [count_replaceAllC '"' '\x27' "&#39;".data _ (by decide), if_neg (by decide),
      count_replaceAllC '"' '"' "&quot;".data _ (by decide), if_pos rfl]
  · show (replaceAllC (replaceAllC (replaceAllC (replaceAllC
        (replaceAllC s.data '&' "&amp;".data) '<' "&lt;".data) '>' "&gt;".data)
        '"' "&quot;".data) '\x27' "&#39;".data).count '\x27' = 0
    rw [count_replaceAllC '\x27' '\x27' "&#39;".data _ (by decide), if_pos rfl]

theorem count_escapeHtml_lt (s : String) : countC '<' (escapeHtml s) = 0 :=
  (countC_escapeHtml s).1

theorem count_escO_lt (o : Option String) : countC '<' (escO o) = 0 :=
  count_escapeHtml_lt _

theorem countC_waDigits_lt (s : String) : countC '<' (waDigits s) = 0 := by
  unfold countC waDigits
  rw [List.count_eq_zero]
  intro hmem
  rcases List.mem_filter.1 hmem with ⟨_, hdig⟩
  exact absurd hdig (by decide)

/-- Truthiness-preserving blanking of a user-controlled field. -/
def blankS : Option String → Option String
  | some s => if s = "" then some "" else some "x"
  | none => none

def blankAg (a : RAgenda) : RAgenda :=
  { title? := blankS a.title?, time? := blankS a.time? }

def blankSp (s : RSpeaker) : RSpeaker :=
  { photo? := blankS s.photo?, name? := blankS s.name?,
    designation? := blankS s.designation? }

def blankPt (p : RPartner) : RPartner :=
  { logo? := blankS p.logo?, name? := blankS p.name? }

/-- Replace every user-controlled text/URL field of a render-side event by a
placeholder with the same truthiness, preserving list lengths and the
server-generated `createdAt` timestamp. -/
def blankEv (ev : REvent) : REvent :=
  { title? := blankS ev.title?
    bannerUrl? := blankS ev.bannerUrl?
    date? := blankS ev.date?
    description? := blankS ev.description?
    organizer? := blankS ev.organizer?
    email? := blankS ev.email?
    whatsapp? := blankS ev.whatsapp?
    agenda := ev.agenda.map blankAg
    speakers := ev.speakers.map blankSp
    partners := ev.partners.map blankPt
    videos := ev.videos.map fun _ => "x"
    eventId? := blankS ev.eventId?
    createdAt? := ev.createdAt?
    template? := blankS ev.template? }

theorem truthyS_blankS (o : Option String) : truthyS (blankS o) = truthyS o := by
  cases o with
  | none => rfl
  | some s =>
    by_cases h : s = "" <;> simp [blankS, truthyS, h]

theorem jsOrS_blankS_empty (o : Option String) :
    (jsOrS (blankS o) "" = "") ↔ (jsOrS o "" = "") := by
  cases o with
  | none => exact Iff.rfl
  | some s =>
    by_cases h : s = "" <;> simp [blankS, jsOrS, h]

theorem speakerHtml_blank (s : RSpeaker) :
    countC '<' (classicSpeakerHtml (blankSp s))
      = countC '<' (classicSpeakerHtml s) := by
  unfold classicSpeakerHtml classicSpeakerImgTag blankSp
  by_cases h : truthyS s.photo? = true <;>
    simp [truthyS_blankS, h, countC_append, count_escO_lt]

theorem agendaHtml_blank (a : RAgenda) :
    countC '<' (classicAgendaHtml (blankAg a))
      = countC '<' (classicAgendaHtml a) := by
  unfold classicAgendaHtml blankAg
  simp [countC_append, count_escO_lt]

theorem videoHtml_blank (v : String) :
    countC '<' (classicVideoHtml "x") = countC '<' (classicVideoHtml v) := by
  unfold classicVideoHtml
  simp [countC_append, count_escapeHtml_lt]

theorem partnerHtml_blank (p : RPartner) :
    countC '<' (classicPartnerHtml (blankPt p))
      = countC '<' (classicPartnerHtml p) := by
  unfold classicPartnerHtml blankPt
  simp [countC_append, count_escO_lt]

theorem speakersList_blank (l : List RSpeaker) :
    (((l.map blankSp).map classicSpeakerHtml).map (countC '<'))
      = ((l.map classicSpeakerHtml).map (countC '<')) := by
  induction l with
  | nil => rfl
  | cons x xs ih =>
    simp only [List.map_cons]
    rw [speakerHtml_blank x, ih]

theorem speakersBlock_blank (l : List RSpeaker) :
    countC '<' (classicSpeakersBlock (l.map blankSp))
      = countC '<' (classicSpeakersBlock l) := by
  cases l with
  | nil => rfl
  | cons x xs =>
    show countC '<' (String.join (((x :: xs).map blankSp).map classicSpeakerHtml))
      = countC '<' (String.join ((x :: xs).map classicSpeakerHtml))
    rw [countC_join, countC_join, speakersList_blank]

theorem agendaList_blank (l : List RAgenda) :
    (((l.map blankAg).map classicAgendaHtml).map (countC '<'))
      = ((l.map classicAgendaHtml).map (countC '<')) := by
  induction l with
  | nil => rfl
  | cons x xs ih =>
    simp only [List.map_cons]
    rw [agendaHtml_blank x, ih]

theorem agendaBlock_blank (l : List RAgenda) :
    countC '<' (classicAgendaBlock (l.map blankAg))
      = countC '<' (classicAgendaBlock l) := by
  cases l with
  | nil => rfl
  | cons x xs =>
    show countC '<' (String.join (((x :: xs).map blankAg).map classicAgendaHtml))
      = countC '<' (String.join ((x :: xs).map classicAgendaHtml))
    rw [countC_join, countC_join, agendaList_blank]

theorem videosList_blank (l : List String) :
    (((l.map fun _ => "x").map classicVideoHtml).map (countC '<'))
      = ((l.map classicVideoHtml).map (countC '<')) := by
  induction l with
  | nil => rfl
  | cons x xs ih =>
    simp only [List.map_cons]
    rw [videoHtml_blank x, ih]

theorem videosBlock_blank (l : List String) :
    countC '<' (classicVideosBlock (l.map fun _ => "x"))
      = countC '<' (classicVideosBlock l) := by
  cases l with
  | nil => rfl
  | cons x xs =>
    show countC '<' (String.join (((x :: xs).map fun _ => "x").map classicVideoHtml))
      = countC '<' (String.join ((x :: xs).map classicVideoHtml))
    rw [countC_join, countC_join, videosList_blank]

theorem partnersList_blank (l : List RPartner) :
    (((l.map blankPt).map classicPartnerHtml).map (countC '<'))
      = ((l.map classicPartnerHtml).map (countC '<')) := by
  induction l with
  | nil => rfl
  | cons x xs ih =>
    simp only [List.map_cons]
    rw [partnerHtml_blank x, ih]

theorem partnersBlock_blank (l : List RPartner) :
    countC '<' (classicPartnersBlock (l.map blankPt))
      = countC '<' (classicPartnersBlock l) := by
  cases l with
  | nil => rfl
  | cons x xs =>
    show countC '<' (String.join (((x :: xs).map blankPt).map classicPartnerHtml))
      = countC '<' (String.join ((x :: xs).map classicPartnerHtml))
    rw [countC_join, countC_join, partnersList_blank]

theorem bannerImg_blank (t t' b b' : String)
    (ht : countC '<' t = 0) (ht' : countC '<' t' = 0)
    (hb : (b = "") ↔ (b' = "")) :
    countC '<' (classicBannerImgTag t b)
      = countC '<' (classicBannerImgTag t' b') := by
  unfold classicBannerImgTag
  by_cases h : b = ""
  · rw [if_pos h, if_pos (hb.1 h)]
  · rw [if_neg h, if_neg fun hh => h (hb.2 hh)]
    simp only [countC_append, count_escapeHtml_lt, ht, ht']

theorem heroBg_blank (o : Option String) :
    countC '<' (modernHeroBg (blankS o)) = countC '<' (modernHeroBg o) := by
  unfold modernHeroBg
  rw [truthyS_blankS]
  by_cases h : truthyS o = true <;>
    simp [h, countC_append, count_escO_lt]

theorem renderClassic_blank (ev : REvent) :
    countC '<' (renderClassic (blankEv ev)) = countC '<' (renderClassic ev) := by
  have hbanner := bannerImg_blank
    (escapeHtml (jsOrS (blankS ev.title?) "Untitled Event"))
    (escapeHtml (jsOrS ev.title? "Untitled Event"))
    (jsOrS (blankS ev.bannerUrl?) "")
    (jsOrS ev.bannerUrl? "")
    (count_escapeHtml_lt _) (count_escapeHtml_lt _)
    (jsOrS_blankS_empty ev.bannerUrl?)
  unfold renderClassic blankEv
  dsimp only
  simp only [countC_append, count_escapeHtml_lt, count_escO_lt, countC_waDigits_lt]
  rw [speakersBlock_blank, agendaBlock_blank, videosBlock_blank,
    partnersBlock_blank, hbanner]

theorem modernAgendaHtml_blank (a : RAgenda) :
    countC '<' (modernAgendaHtml (blankAg a)) = countC '<' (modernAgendaHtml a) := by
  unfold modernAgendaHtml blankAg
  simp [countC_append, count_escO_lt]

theorem modernSpeakerHtml_blank (s : RSpeaker) :
    countC '<' (modernSpeakerHtml (blankSp s)) = countC '<' (modernSpeakerHtml s) := by
  unfold modernSpeakerHtml blankSp
  simp [countC_append, count_escO_lt]

theorem modernPartnerHtml_blank (p : RPartner) :
    countC '<' (modernPartnerHtml (blankPt p)) = countC '<' (modernPartnerHtml p) := by
  unfold modernPartnerHtml blankPt
  simp [countC_append, count_escO_lt]

theorem modernAgendaList_blank (l : List RAgenda) :
    (((l.map blankAg).map modernAgendaHtml).map (countC '<'))
      = ((l.map modernAgendaHtml).map (countC '<')) := by
  induction l with
  | nil => rfl
  | cons x xs ih =>
    simp only [List.map_cons]
    rw [modernAgendaHtml_blank x, ih]

theorem modernSpeakerList_blank (l : List RSpeaker) :
    (((l.map blankSp).map modernSpeakerHtml).map (countC '<'))
      = ((l.map modernSpeakerHtml).map (countC '<')) := by
  induction l with
  | nil => rfl
  | cons x xs ih =>
    simp only [List.map_cons]
    rw [modernSpeakerHtml_blank x, ih]

theorem modernPartnerList_blank (l : List RPartner) :
    (((l.map blankPt).map modernPartnerHtml).map (countC '<'))
      = ((l.map modernPartnerHtml).map (countC '<')) := by
  induction l with
  | nil => rfl
  | cons x xs ih =>
    simp only [List.map_cons]
    rw [modernPartnerHtml_blank x, ih]

theorem renderModern_blank (ev : REvent) :
    countC '<' (renderModern (blankEv ev)) = countC '<' (renderModern ev) := by
  unfold renderModern blankEv
  dsimp only
  simp only [countC_append, count_escapeHtml_lt, count_escO_lt]
  rw [heroBg_blank, countC_join, countC_join, countC_join, countC_join,
    countC_join, countC_join, modernAgendaList_blank, modernSpeakerList_blank,
    modernPartnerList_blank]

/-- C7 (amended): `escapeHtml` eliminates all five special characters, and —
because every interpolation site of both templates, the URL sites included
(image `src`, iframe `src`, the hero background URL, mailto/WhatsApp links),
passes user data through `escapeHtml` — the number of `<` characters of a
rendered page is unchanged when every user-controlled text/URL field is
replaced by a same-truthiness placeholder. The claim's assertion that URL
fields are interpolated *without* that escaping does not hold of this code. -/
theorem claim_C7_amended :
    (∀ s : String, countC '<' (escapeHtml s) = 0 ∧ countC '>' (escapeHtml s) = 0
      ∧ countC '"' (escapeHtml s) = 0 ∧ countC '\x27' (escapeHtml s) = 0)
    ∧ (∀ ev : REvent,
        countC '<' (renderClassic (blankEv ev)) = countC '<' (renderClassic ev))
    ∧ (∀ ev : REvent,
        countC '<' (renderModern (blankEv ev)) = countC '<' (renderModern ev)) :=
  ⟨countC_escapeHtml, renderClassic_blank, renderModern_blank⟩

/-- C7 counterexample: at the classic template's banner site (the claim's
example of an unescaped URL interpolation), the URL is escaped: rendering a
banner URL containing `"` produces `&quot;` in the `src` attribute, not the
raw URL. -/
theorem claim_C7_counterexample :
    classicBannerImgTag (escapeHtml "T") "x\"y"
      = "<img class=\"banner\" src=\"x&quot;y\" alt=\"T banner\" />"
    ∧ escapeHtml "x\"y" ≠ "x\"y" := by
  constructor
  · decide
  · decide
